import Mathlib

/-! Verification development for a JavaScript engine-simulation program
(an Otto-cycle engine simulator).  The two relevant source files are
`js/engine/geometry.js` (class `EngineGeometry`) and
`js/workers/simulation.worker.js` (class `EngineSimulationWorker`).

Embedding conventions:
* JS numbers used for parameters, loop control, validation and display
  rounding are modelled as exact rationals (`ℚ`);
* thermodynamic / kinematic formulas (involving `Math.cos`, `Math.sqrt`,
  `Math.pow` with fractional exponents, `Math.PI`) are modelled over `ℝ`
  with `Real.cos`, `Real.sqrt`, real `rpow`, `Real.pi`;
* IEEE-754 rounding is not modelled (arithmetic is exact); the explicit
  decimal rounding the program performs via `Math.round(x * k) / k` is
  modelled exactly by `jsRound`;
* JS `throw` / `try-catch` is modelled with `Except String`;
* `postMessage` side channels (progress notifications, timestamps) are
  I/O and are omitted; the terminal result / terminal error of a
  simulation request is what `simulateEngine` returns.
-/

namespace EngineSim

/-- JS `Math.round`: nearest integer, halves toward positive infinity. -/
def jsRound (x : ℚ) : ℤ := ⌊x + 1/2⌋

/-- JS `Math.round` on a real argument. -/
noncomputable def jsRoundR (x : ℝ) : ℤ := ⌊x + 1/2⌋

/-- JS truthiness test for an optional numeric value: `undefined` and `0`
are falsy (`x || d` yields `d` for them). -/
def jsOrQ (x : Option ℚ) (d : ℚ) : ℚ :=
  match x with
  | none => d
  | some v => if v = 0 then d else v

/-- `Except.isOk` as a plain Bool (an `ok` result was produced). -/
def exceptOk {ε α : Type} : Except ε α → Bool
  | .ok _ => true
  | .error _ => false

instance {ε α : Type} [DecidableEq ε] [DecidableEq α] : DecidableEq (Except ε α)
  | .error e, .error f =>
    if h : e = f then .isTrue (by rw [h]) else .isFalse (by simp [h])
  | .error _, .ok _ => .isFalse (by simp)
  | .ok _, .error _ => .isFalse (by simp)
  | .ok a, .ok b =>
    if h : a = b then .isTrue (by rw [h]) else .isFalse (by simp [h])

namespace Worker

/-- A simulation request as received by the worker: a JS object in which
any of the seven parameter keys may be absent. -/
structure SimRequest where
  bore : Option ℚ
  stroke : Option ℚ
  compressionRatio : Option ℚ
  cylinders : Option ℚ
  engineSpeed : Option ℚ
  load : Option ℚ
  intakeTemp : Option ℚ

/-- A fully populated parameter set (after merging with defaults). -/
structure SimParams where
  bore : ℚ
  stroke : ℚ
  compressionRatio : ℚ
  cylinders : ℚ
  engineSpeed : ℚ
  load : ℚ
  intakeTemp : ℚ
deriving DecidableEq

/-- `const validated = { ...defaults, ...params }` from
`validateParameters` (simulation.worker.js:54-65): absent keys take the
built-in defaults.  Defaults: bore 86, stroke 86, compressionRatio 10.5,
cylinders 4, engineSpeed 2000, load 75, intakeTemp 298. -/
def mergeDefaults (p : SimRequest) : SimParams where
  bore := p.bore.getD 86
  stroke := p.stroke.getD 86
  compressionRatio := p.compressionRatio.getD (21/2)
  cylinders := p.cylinders.getD 4
  engineSpeed := p.engineSpeed.getD 2000
  load := p.load.getD 75
  intakeTemp := p.intakeTemp.getD 298

/-- `validateParameters` (simulation.worker.js:53-75).  Sequential
`if (..) throw` statements: the first failing check throws and ends the
function, so at most one message is ever reported.  Note that `load` and
`intakeTemp` are never range-checked. -/
def validateParameters (p : SimRequest) : Except String SimParams :=
  if (mergeDefaults p).bore < 50 ∨ (mergeDefaults p).bore > 150 then
    .error "Bore must be between 50-150mm"
  else if (mergeDefaults p).stroke < 50 ∨ (mergeDefaults p).stroke > 150 then
    .error "Stroke must be between 50-150mm"
  else if (mergeDefaults p).compressionRatio < 8 ∨ (mergeDefaults p).compressionRatio > 15 then
    .error "Compression ratio must be between 8-15"
  else if (mergeDefaults p).cylinders < 1 ∨ (mergeDefaults p).cylinders > 12 then
    .error "Cylinders must be between 1-12"
  else if (mergeDefaults p).engineSpeed < 500 ∨ (mergeDefaults p).engineSpeed > 8000 then
    .error "Engine speed must be between 500-8000 rpm"
  else
    .ok (mergeDefaults p)

/-- One element of the `cycleData` array pushed per loop iteration
(simulation.worker.js:201-241).  Display-rounded fields carry the exact
value of the `Math.round`-based decimal rounding the source applies. -/
structure CycleRecord where
  angle : ℚ                     -- Math.round(angle * 10) / 10
  volume : ℝ                    -- Math.round(volume / 10) / 100 (cm³)
  pressure : ℝ                  -- Math.round(pressure * 1000) / 1000 (bar)
  temperature : ℝ               -- Math.round(temperature * 10) / 10 (K)
  pistonPosition : ℝ
  pistonVelocity : ℝ
  pistonAcceleration : ℝ
  massInCylinder : ℝ
  density : ℝ
  compressionRatio : ℝ
  heatRelease : ℝ
  heatReleaseTotal : ℝ
  heatTransfer : ℝ
  heatTransferCoeff : ℝ
  surfaceArea : ℝ
  meanPistonSpeed : ℝ
  gasVelocity : ℝ
  intakeValveOpen : Bool
  exhaustValveOpen : Bool
  combustionActive : Bool
  strokePhase : String
  cycleProgress : ℝ

/-- The mutable variables carried across loop iterations
(simulation.worker.js:98-101). -/
structure SimState where
  currentMass : ℝ
  previousPressure : ℝ
  previousTemperature : ℝ
  heatReleaseTotal : ℝ

/-- Values produced by the phase branch (simulation.worker.js:127-185):
`pressure, temperature, heatRelease, massInCylinder`, the possibly
updated `currentMass` and `heatReleaseTotal`, the `valveEvents` flags and
`combustionActive`. -/
structure PhaseResult where
  pressure : ℝ
  temperature : ℝ
  heatRelease : ℝ
  massInCylinder : ℝ
  currentMass : ℝ
  heatTotal : ℝ
  intakeOpen : Bool
  exhaustOpen : Bool
  combustionActive : Bool

/-- Geometry constants computed at the top of `calculateOttoCycle`
(simulation.worker.js:81): single-cylinder displacement in mm³. -/
noncomputable def wDisplacement (v : SimParams) : ℝ :=
  Real.pi * ((v.bore : ℝ) / 2) ^ 2 * (v.stroke : ℝ)

/-- `clearanceVolume = displacement / (compressionRatio - 1)`
(simulation.worker.js:82), in mm³. -/
noncomputable def wClearance (v : SimParams) : ℝ :=
  wDisplacement v / ((v.compressionRatio : ℝ) - 1)

/-- `maxVolume = displacement + clearanceVolume`
(simulation.worker.js:83), in mm³. -/
noncomputable def wMaxVolume (v : SimParams) : ℝ :=
  wDisplacement v + wClearance v

/-- `const intakeTemp = params.intakeTemp || 298`
(simulation.worker.js:95): JS truthiness, so a zero value also falls
back to 298. -/
def wIntakeTemp (v : SimParams) : ℚ :=
  if v.intakeTemp = 0 then 298 else v.intakeTemp

/-- The worker's free function `calculateCylinderVolume(crankAngle, bore,
stroke, clearanceVolume)` (simulation.worker.js:261-274).  Slider-crank
mechanism; note this version applies no floor at `clearanceVolume`. -/
noncomputable def workerCylinderVolume (crankAngle bore stroke clearanceVolume : ℝ) : ℝ :=
  let crankAngleRad := crankAngle * Real.pi / 180
  let crankRadius := stroke / 2
  let connectingRodLength := stroke * 1.5
  let x := crankRadius * Real.cos crankAngleRad +
    Real.sqrt (connectingRodLength ^ 2 - (crankRadius * Real.sin crankAngleRad) ^ 2)
  let pistonPosition := connectingRodLength + crankRadius - x
  clearanceVolume + Real.pi * (bore / 2) ^ 2 * pistonPosition

/-- The phase branch of the cycle loop (simulation.worker.js:127-185),
as a function of the crank angle `a` (degrees, exact rational), the
carried state and the parameters.  The thermodynamic constants are
`gamma = 1.35`, `R = 287`, `intakePressure = 101325` Pa
(simulation.worker.js:91-96).

Scoping subtlety preserved from the source: the compression branch
declares a local `const compressionRatio = maxVolume / volume`, while
the combustion and expansion branches refer to the *parameter*
`compressionRatio` destructured from `params` (simulation.worker.js:78),
because the local one is block-scoped to the compression branch. -/
noncomputable def ottoPhase (v : SimParams) (st : SimState) (a : ℚ) : PhaseResult :=
  let gamma : ℝ := 1.35
  let R : ℝ := 287
  let intakePressure : ℝ := 101325
  let intakeTemp : ℝ := (wIntakeTemp v : ℝ)
  let volume := workerCylinderVolume ((a : ℝ)) (v.bore : ℝ) (v.stroke : ℝ) (wClearance v)
  if 0 ≤ a ∧ a ≤ 180 then
    -- Intake stroke (0-180°): isobaric, mass from ideal gas law
    let pressure := intakePressure / 100000
    let temperature := intakeTemp
    let massInCylinder := (pressure * 100000 * volume / 1000000) / (R * temperature)
    { pressure := pressure, temperature := temperature, heatRelease := 0,
      massInCylinder := massInCylinder, currentMass := massInCylinder,
      heatTotal := st.heatReleaseTotal,
      intakeOpen := true, exhaustOpen := false, combustionActive := false }
  else if 180 < a ∧ a ≤ 360 then
    -- Compression stroke (180-360°): isentropic from intake conditions
    let compressionRatio := wMaxVolume v / volume
    { pressure := (intakePressure / 100000) * compressionRatio ^ gamma,
      temperature := intakeTemp * compressionRatio ^ (gamma - 1),
      heatRelease := 0,
      massInCylinder := st.currentMass, currentMass := st.currentMass,
      heatTotal := st.heatReleaseTotal,
      intakeOpen := false, exhaustOpen := false, combustionActive := false }
  else if 360 < a ∧ a ≤ 540 then
    if a ≤ 370 then
      -- Combustion phase (360-370°): rapid heat release
      let combustionProgress := ((a : ℝ) - 360) / 10
      let heatAdditionMultiplier := 1.5 + ((v.load : ℝ) / 100 * 2.5)
      let heatRelease := (heatAdditionMultiplier - 1) * 1000 * (1/10 : ℝ)
      { pressure := (intakePressure / 100000) * (v.compressionRatio : ℝ) ^ gamma *
          (1 + (heatAdditionMultiplier - 1) * combustionProgress),
        temperature := intakeTemp * (v.compressionRatio : ℝ) ^ (gamma - 1) *
          (1 + (heatAdditionMultiplier - 1) * combustionProgress),
        heatRelease := heatRelease,
        massInCylinder := st.currentMass, currentMass := st.currentMass,
        heatTotal := st.heatReleaseTotal + heatRelease,
        intakeOpen := false, exhaustOpen := false, combustionActive := true }
    else
      -- Expansion phase (370-540°): isentropic from the peak state
      let expansionRatio := volume / wClearance v
      let peakPressure := (intakePressure / 100000) * (v.compressionRatio : ℝ) ^ gamma *
        (1.5 + (v.load : ℝ) / 100 * 2.5)
      let peakTemp := intakeTemp * (v.compressionRatio : ℝ) ^ (gamma - 1) *
        (1.5 + (v.load : ℝ) / 100 * 2.5)
      { pressure := peakPressure / expansionRatio ^ gamma,
        temperature := peakTemp / expansionRatio ^ (gamma - 1),
        heatRelease := 0,
        massInCylinder := st.currentMass, currentMass := st.currentMass,
        heatTotal := st.heatReleaseTotal,
        intakeOpen := false, exhaustOpen := false, combustionActive := false }
  else
    -- Exhaust stroke (540-720°)
    { pressure := intakePressure / 100000 * 1.05,
      temperature := max (intakeTemp * 1.8) (st.previousTemperature * 0.95),
      heatRelease := 0,
      massInCylinder := st.currentMass * 0.95, currentMass := st.currentMass,
      heatTotal := st.heatReleaseTotal,
      intakeOpen := false, exhaustOpen := true, combustionActive := false }

/-- One full iteration of the cycle loop body (simulation.worker.js:103-244):
phase values, kinematics, Woschni heat transfer, display rounding, the
pushed record and the successor state. -/
noncomputable def ottoStep (v : SimParams) (st : SimState) (a : ℚ) : SimState × CycleRecord :=
  let aR : ℝ := (a : ℝ)
  let crankAngleRad := aR * Real.pi / 180
  let bore : ℝ := (v.bore : ℝ)
  let stroke : ℝ := (v.stroke : ℝ)
  let engineSpeed : ℝ := (v.engineSpeed : ℝ)
  let stepSize : ℝ := 1/10
  let connectingRodLength := stroke * 1.5
  let volume := workerCylinderVolume aR bore stroke (wClearance v)
  let crankRadius := stroke / 2
  let pistonPosition := crankRadius * (1 - Real.cos crankAngleRad) +
    (crankRadius ^ 2 * (Real.sin crankAngleRad) ^ 2) / (2 * connectingRodLength)
  let angularVelocity := engineSpeed * 2 * Real.pi / 60
  let pistonVelocity := crankRadius * angularVelocity *
    (Real.sin crankAngleRad +
      (crankRadius * Real.sin crankAngleRad * Real.cos crankAngleRad) / connectingRodLength) / 1000
  let pistonAcceleration := crankRadius * angularVelocity ^ 2 *
    (Real.cos crankAngleRad + (crankRadius * Real.cos (2 * crankAngleRad)) / connectingRodLength) / 1000
  let ph := ottoPhase v st a
  let surfaceArea := Real.pi * bore * (bore / 2 + (volume * 1000) / (Real.pi * (bore / 2) ^ 2))
  let meanPistonSpeed := 2 * stroke * engineSpeed / (60 * 1000)
  let compressionRatioInstant := wMaxVolume v / volume
  let gasVelocity := |pistonVelocity| * (Real.pi * (bore / 2) ^ 2) /
    (Real.pi * bore * Real.sqrt (volume / 1000))
  let heatTransferCoeff := if volume > 0 then
      3.26 * (bore / 1000) ^ (-0.2 : ℝ) * (ph.pressure * 100000) ^ (0.8 : ℝ) *
        ph.temperature ^ (-0.55 : ℝ) * (meanPistonSpeed + gasVelocity) ^ (0.8 : ℝ)
    else 0
  let heatTransfer := heatTransferCoeff * (surfaceArea / 1000000) * (ph.temperature - 400) * stepSize
  let record : CycleRecord :=
    { angle := (jsRound (a * 10) : ℚ) / 10
      volume := (jsRoundR (volume / 10) : ℝ) / 100
      pressure := (jsRoundR (ph.pressure * 1000) : ℝ) / 1000
      temperature := (jsRoundR (ph.temperature * 10) : ℝ) / 10
      pistonPosition := (jsRoundR (pistonPosition * 100) : ℝ) / 100
      pistonVelocity := (jsRoundR (pistonVelocity * 1000) : ℝ) / 1000
      pistonAcceleration := (jsRoundR (pistonAcceleration * 100) : ℝ) / 100
      massInCylinder := (jsRoundR (ph.massInCylinder * 100000) : ℝ) / 100000
      density := ph.massInCylinder / (volume / 1000000000)
      compressionRatio := (jsRoundR (compressionRatioInstant * 100) : ℝ) / 100
      heatRelease := (jsRoundR (ph.heatRelease * 100) : ℝ) / 100
      heatReleaseTotal := (jsRoundR (ph.heatTotal * 100) : ℝ) / 100
      heatTransfer := (jsRoundR (heatTransfer * 100) : ℝ) / 100
      heatTransferCoeff := (jsRoundR (heatTransferCoeff * 100) : ℝ) / 100
      surfaceArea := (jsRoundR (surfaceArea / 100) : ℝ) / 100
      meanPistonSpeed := (jsRoundR (meanPistonSpeed * 1000) : ℝ) / 1000
      gasVelocity := (jsRoundR (gasVelocity * 1000) : ℝ) / 1000
      intakeValveOpen := ph.intakeOpen
      exhaustValveOpen := ph.exhaustOpen
      combustionActive := ph.combustionActive
      strokePhase := if a ≤ 180 then "Intake" else if a ≤ 360 then "Compression"
        else if a ≤ 540 then "Power" else "Exhaust"
      cycleProgress := (jsRoundR ((aR / 720) * 1000) : ℝ) / 10 }
  let st' : SimState :=
    { currentMass := ph.currentMass
      previousPressure := ph.pressure
      previousTemperature := ph.temperature
      heatReleaseTotal := ph.heatTotal }
  (st', record)

/-- The cycle loop `for (let angle = 0; angle <= 720; angle += stepSize)`
(simulation.worker.js:103-256), fuel-indexed to make the recursion
structural; the fuel given by `calculateOttoCycle` exceeds the number of
iterations the guard allows. -/
noncomputable def ottoLoop (v : SimParams) : ℕ → ℚ → SimState → List CycleRecord
  | 0, _, _ => []
  | fuel + 1, a, st =>
    if a ≤ 720 then
      let step := ottoStep v st a
      step.2 :: ottoLoop v fuel (a + 1/10) step.1
    else []

/-- Initial values of the carried variables (simulation.worker.js:98-101). -/
noncomputable def initState (v : SimParams) : SimState where
  currentMass := 0
  previousPressure := 101325 / 100000
  previousTemperature := (wIntakeTemp v : ℝ)
  heatReleaseTotal := 0

/-- `calculateOttoCycle` (simulation.worker.js:77-259): the full record
sequence for one 720° cycle at stepSize 0.1°. -/
noncomputable def calculateOttoCycle (v : SimParams) : List CycleRecord :=
  ottoLoop v 7300 0 (initState v)

/-- `PerformanceSummary` returned by `calculatePerformance`
(simulation.worker.js:302-310). -/
structure Performance where
  power : ℝ
  torque : ℝ
  bmep : ℝ
  imep : ℝ
  efficiency : ℝ
  maxPressure : ℝ
  maxTemperature : ℝ

/-- The trapezoidal P-V work accumulation of `calculatePerformance`
(simulation.worker.js:278-283): over consecutive record pairs,
`workPerCycle += avgP * dV * 100`, on the display-rounded record
fields. -/
noncomputable def workPerCycle (cycleData : List CycleRecord) : ℝ :=
  (cycleData.zip cycleData.tail).foldl
    (fun acc pr =>
      acc + ((pr.2.pressure + pr.1.pressure) / 2) * (pr.2.volume - pr.1.volume) * 100) 0

/-- `Math.max(...)` over a list; the cycle list is never empty where this
is used (the source would give negative infinity on an empty spread). -/
noncomputable def jsMaxList : List ℝ → ℝ
  | [] => 0
  | h :: t => t.foldl max h

/-- `calculatePerformance` (simulation.worker.js:276-311). -/
noncomputable def calculatePerformance (cycleData : List CycleRecord) (params : SimParams) :
    Performance :=
  let work := workPerCycle cycleData
  let displacement := Real.pi * ((params.bore : ℝ) / 2) ^ 2 * (params.stroke : ℝ) / 1000
  let imep := work / displacement
  let cyclesPerSecond := (params.engineSpeed : ℝ) / 120
  let indicatedPower := (work * cyclesPerSecond * (params.cylinders : ℝ)) / 1000
  let mechanicalEfficiency : ℝ := 0.85
  let brakePower := indicatedPower * mechanicalEfficiency
  let indicatedTorque := (indicatedPower * 1000 * 60) / (2 * Real.pi * (params.engineSpeed : ℝ))
  let brakeTorque := indicatedTorque * mechanicalEfficiency
  let fuelFlowRate := 0.3 * brakePower
  let thermalEfficiency := (indicatedPower / (fuelFlowRate * 43.5)) * 100
  { power := (jsRoundR (brakePower * 10) : ℝ) / 10
    torque := (jsRoundR (brakeTorque * 10) : ℝ) / 10
    bmep := (jsRoundR (imep * mechanicalEfficiency * 10) : ℝ) / 10
    imep := (jsRoundR (imep * 10) : ℝ) / 10
    efficiency := (jsRoundR (thermalEfficiency * 10) : ℝ) / 10
    maxPressure := (jsRoundR (jsMaxList (cycleData.map (·.pressure)) * 10) : ℝ) / 10
    maxTemperature := (jsRoundR (jsMaxList (cycleData.map (·.temperature))) : ℝ) }

/-- `EmissionsSummary` returned by `calculateEmissions`
(simulation.worker.js:313-326). -/
structure Emissions where
  nox : ℝ
  co : ℝ
  hc : ℝ
  pm : ℝ

/-- `calculateEmissions` (simulation.worker.js:313-326). -/
noncomputable def calculateEmissions (cycleData : List CycleRecord) (params : SimParams) :
    Emissions :=
  let maxTemp := jsMaxList (cycleData.map (·.temperature))
  let nox := if maxTemp > 2000 then (maxTemp - 2000) * 0.005 else 0.1
  { nox := (jsRoundR (nox * 100) : ℝ) / 100
    co := (jsRoundR ((2.5 - (params.load : ℝ) / 50) * 100) : ℝ) / 100
    hc := (jsRoundR ((1.0 - (params.load : ℝ) / 100) * 100) : ℝ) / 100
    pm := 0.05 }

/-- The terminal payload of a successful simulation
(simulation.worker.js:33-41); the `Date.now()` timestamp is I/O and is
omitted. -/
structure SimResult where
  cycle : List CycleRecord
  performance : Performance
  emissions : Emissions

/-- `simulateEngine` (simulation.worker.js:10-51): validate, then run
the cycle loop and the aggregations; a thrown validation error becomes
the terminal `simulation_error` message and no cycle is produced. -/
noncomputable def simulateEngine (parameters : SimRequest) : Except String SimResult :=
  match validateParameters parameters with
  | .error e => .error e
  | .ok validatedParams =>
    let results := calculateOttoCycle validatedParams
    .ok { cycle := results
          performance := calculatePerformance results validatedParams
          emissions := calculateEmissions results validatedParams }

end Worker

namespace Geometry

/-- Constructor argument of `EngineGeometry` (geometry.js:8): a JS object
whose keys may each be absent. -/
structure GeometryInput where
  bore : Option ℚ
  stroke : Option ℚ
  connectingRodLength : Option ℚ
  compressionRatio : Option ℚ
  numberOfCylinders : Option ℚ

/-- The `EngineGeometry` instance: the five parameter fields plus the
three derived fields computed by the constructor (geometry.js:8-23). -/
structure EngineGeometry where
  bore : ℚ
  stroke : ℚ
  connectingRodLength : ℚ
  compressionRatio : ℚ
  numberOfCylinders : ℚ
  displacement : ℝ
  clearanceVolume : ℝ
  maxCylinderVolume : ℝ

/-- The error list accumulated by `validateGeometry` (geometry.js:28-54),
in source order. -/
def geometryViolations (bore stroke rod cr n : ℚ) : List String :=
  (if bore < 30 ∨ bore > 200 then ["Bore diameter must be between 30-200mm"] else []) ++
  (if stroke < 30 ∨ stroke > 200 then ["Stroke length must be between 30-200mm"] else []) ++
  (if rod < stroke then ["Connecting rod length must be greater than stroke"] else []) ++
  (if cr < 6 ∨ cr > 20 then ["Compression ratio must be between 6-20"] else []) ++
  (if n < 1 ∨ n > 16 then ["Number of cylinders must be between 1-16"] else [])

/-- `validateGeometry` (geometry.js:28-54): `none` when the parameters
pass, otherwise the thrown message, which joins every accumulated
violation with `', '`. -/
def validateGeometry (bore stroke rod cr n : ℚ) : Option String :=
  let errors := geometryViolations bore stroke rod cr n
  if errors = [] then none
  else some ("Geometry validation failed: " ++ String.intercalate ", " errors)

/-- `calculateDisplacement` (geometry.js:60-64): *total* displacement,
single-cylinder volume times `numberOfCylinders`, in cm³. -/
noncomputable def calculateDisplacement (bore stroke n : ℚ) : ℝ :=
  let singleCylinderDisplacement := Real.pi * ((bore : ℝ) / 2) ^ 2 * (stroke : ℝ)
  let totalDisplacement := singleCylinderDisplacement * (n : ℝ)
  totalDisplacement / 1000

/-- `calculateClearanceVolume` (geometry.js:70-73): clearance from the
*single-cylinder* displacement, in cm³. -/
noncomputable def calculateClearanceVolume (bore stroke cr : ℚ) : ℝ :=
  let singleCylinderDisplacement := Real.pi * ((bore : ℝ) / 2) ^ 2 * (stroke : ℝ) / 1000
  singleCylinderDisplacement / ((cr : ℝ) - 1)

/-- The `EngineGeometry` constructor (geometry.js:8-23): `||`-defaulting
of each parameter, validation (which may throw), then the derived
fields. -/
noncomputable def create (parameters : GeometryInput) : Except String EngineGeometry :=
  let bore := jsOrQ parameters.bore 86
  let stroke := jsOrQ parameters.stroke 86
  let connectingRodLength := jsOrQ parameters.connectingRodLength (stroke * 1.5)
  let compressionRatio := jsOrQ parameters.compressionRatio (21/2)
  let numberOfCylinders := jsOrQ parameters.numberOfCylinders 4
  match validateGeometry bore stroke connectingRodLength compressionRatio numberOfCylinders with
  | some e => .error e
  | none =>
    .ok { bore := bore, stroke := stroke, connectingRodLength := connectingRodLength,
          compressionRatio := compressionRatio, numberOfCylinders := numberOfCylinders,
          displacement := calculateDisplacement bore stroke numberOfCylinders,
          clearanceVolume := calculateClearanceVolume bore stroke compressionRatio,
          maxCylinderVolume := calculateDisplacement bore stroke numberOfCylinders +
            calculateClearanceVolume bore stroke compressionRatio }

/-- `EngineGeometry.calculateCylinderVolume` (geometry.js:81-97):
slider-crank piston position, swept volume over the clearance volume,
floored at the clearance volume by `Math.max`. -/
noncomputable def calculateCylinderVolume (g : EngineGeometry) (crankAngle : ℝ) : ℝ :=
  let crankAngleRad := crankAngle * Real.pi / 180
  let crankRadius := (g.stroke : ℝ) / 2
  let rodRatio := (g.connectingRodLength : ℝ) / crankRadius
  let pistonPosition := crankRadius *
    ((1 - Real.cos crankAngleRad) +
      (1 / rodRatio) * (1 - Real.sqrt (1 - (rodRatio * Real.sin crankAngleRad) ^ 2)))
  let instantaneousVolume := g.clearanceVolume +
    (Real.pi * ((g.bore : ℝ) / 2) ^ 2 * pistonPosition) / 1000
  max instantaneousVolume g.clearanceVolume

/-- The parameter fields a caller may pass to `updateGeometry`
(geometry.js:177). -/
structure UpdateInput where
  bore : Option ℚ
  stroke : Option ℚ
  connectingRodLength : Option ℚ
  compressionRatio : Option ℚ
  numberOfCylinders : Option ℚ

/-- `Object.assign(this, newParameters)` followed by the conditional
connecting-rod recomputation (geometry.js:178-183); the derived fields
are untouched at this point. -/
def assignParameters (g : EngineGeometry) (p : UpdateInput) : EngineGeometry :=
  let g1 : EngineGeometry :=
    { g with
      bore := p.bore.getD g.bore
      stroke := p.stroke.getD g.stroke
      connectingRodLength := p.connectingRodLength.getD g.connectingRodLength
      compressionRatio := p.compressionRatio.getD g.compressionRatio
      numberOfCylinders := p.numberOfCylinders.getD g.numberOfCylinders }
  -- `if (!newParameters.connectingRodLength && (newParameters.stroke || newParameters.bore))`
  if jsOrQ p.connectingRodLength 0 = 0 ∧ (jsOrQ p.stroke 0 ≠ 0 ∨ jsOrQ p.bore 0 ≠ 0) then
    { g1 with connectingRodLength := g1.stroke * 1.5 }
  else g1

/-- `updateGeometry` (geometry.js:177-189).  The instance is mutated by
`Object.assign` *before* `validateGeometry` runs; when validation throws,
the function ends with the parameter fields already overwritten and the
derived fields still holding their old values.  The returned pair is
(the instance after the call, the thrown message if any). -/
noncomputable def updateGeometry (g : EngineGeometry) (p : UpdateInput) :
    EngineGeometry × Option String :=
  match validateGeometry (assignParameters g p).bore (assignParameters g p).stroke
      (assignParameters g p).connectingRodLength (assignParameters g p).compressionRatio
      (assignParameters g p).numberOfCylinders with
  | some e => (assignParameters g p, some e)
  | none =>
    ({ assignParameters g p with
        displacement := calculateDisplacement (assignParameters g p).bore
          (assignParameters g p).stroke (assignParameters g p).numberOfCylinders,
        clearanceVolume := calculateClearanceVolume (assignParameters g p).bore
          (assignParameters g p).stroke (assignParameters g p).compressionRatio,
        maxCylinderVolume := calculateDisplacement (assignParameters g p).bore
            (assignParameters g p).stroke (assignParameters g p).numberOfCylinders +
          calculateClearanceVolume (assignParameters g p).bore (assignParameters g p).stroke
            (assignParameters g p).compressionRatio },
      none)

end Geometry

/-! ## Theorems -/

section Claims

open Worker Geometry

/-- Unfolded form of the worker's `calculateCylinderVolume`. -/
theorem workerCylinderVolume_eq (crankAngle bore stroke clearanceVolume : ℝ) :
    Worker.workerCylinderVolume crankAngle bore stroke clearanceVolume =
      clearanceVolume + Real.pi * (bore / 2) ^ 2 *
        (stroke * 1.5 + stroke / 2 -
          (stroke / 2 * Real.cos (crankAngle * Real.pi / 180) +
            Real.sqrt ((stroke * 1.5) ^ 2 -
              (stroke / 2 * Real.sin (crankAngle * Real.pi / 180)) ^ 2))) := rfl

/-- Unfolded form of `EngineGeometry.calculateCylinderVolume`. -/
theorem geometryCylinderVolume_eq (g : Geometry.EngineGeometry) (crankAngle : ℝ) :
    Geometry.calculateCylinderVolume g crankAngle =
      max (g.clearanceVolume +
        (Real.pi * ((g.bore : ℝ) / 2) ^ 2 *
          (((g.stroke : ℝ) / 2) *
            ((1 - Real.cos (crankAngle * Real.pi / 180)) +
              (1 / ((g.connectingRodLength : ℝ) / ((g.stroke : ℝ) / 2))) *
                (1 - Real.sqrt (1 - (((g.connectingRodLength : ℝ) / ((g.stroke : ℝ) / 2)) *
                  Real.sin (crankAngle * Real.pi / 180)) ^ 2))))) / 1000)
        g.clearanceVolume := rfl

/-- C2 counterexample: for the default geometry (bore 86, stroke 86,
compressionRatio 10.5, 4 cylinders) produced by the constructor,
`calculateCylinderVolume(180°)` is nowhere near `maxCylinderVolume`:
three times the 180° volume is still below it, because `displacement` is
the total over all four cylinders while the swept term of
`calculateCylinderVolume` is single-cylinder. -/
theorem c2_bdc_volume_far_below_max :
    Geometry.create ⟨none, none, none, none, none⟩ =
      .ok ⟨86, 86, 129, 21/2, 4, calculateDisplacement 86 86 4,
        calculateClearanceVolume 86 86 (21/2),
        calculateDisplacement 86 86 4 + calculateClearanceVolume 86 86 (21/2)⟩ ∧
    3 * Geometry.calculateCylinderVolume
        ⟨86, 86, 129, 21/2, 4, calculateDisplacement 86 86 4,
          calculateClearanceVolume 86 86 (21/2),
          calculateDisplacement 86 86 4 + calculateClearanceVolume 86 86 (21/2)⟩ 180 <
      Geometry.EngineGeometry.maxCylinderVolume
        ⟨86, 86, 129, 21/2, 4, calculateDisplacement 86 86 4,
          calculateClearanceVolume 86 86 (21/2),
          calculateDisplacement 86 86 4 + calculateClearanceVolume 86 86 (21/2)⟩ := by
  constructor
  · simp only [Geometry.create, EngineSim.jsOrQ]
    norm_num [Geometry.validateGeometry, Geometry.geometryViolations]
  · have hcos : Real.cos ((180 : ℝ) * Real.pi / 180) = -1 := by
      rw [show (180 : ℝ) * Real.pi / 180 = Real.pi by ring]
      exact Real.cos_pi
    have hsin : Real.sin ((180 : ℝ) * Real.pi / 180) = 0 := by
      rw [show (180 : ℝ) * Real.pi / 180 = Real.pi by ring]
      exact Real.sin_pi
    rw [geometryCylinderVolume_eq]
    dsimp only
    rw [hcos, hsin]
    unfold Geometry.calculateDisplacement Geometry.calculateClearanceVolume
    norm_num [Real.sqrt_one]
    rw [max_eq_left (by nlinarith [Real.pi_pos])]
    nlinarith [Real.pi_pos]

/-- C2 amended: for every geometry whose derived fields come from the
constructor's formulas and whose parameters are positive (compression
ratio above 1, at least one cylinder), `calculateCylinderVolume(0°)`
equals `clearanceVolume` exactly, and `calculateCylinderVolume(180°)`
equals `clearanceVolume` plus the *single-cylinder* displacement
`displacement / numberOfCylinders` exactly; it equals
`maxCylinderVolume` (= total displacement + clearance) precisely when
`numberOfCylinders = 1`. -/
theorem c2_amended_tdc_exact_bdc_single_cylinder (g : Geometry.EngineGeometry)
    (hb : 0 < g.bore) (hs : 0 < g.stroke) (hcr : 1 < g.compressionRatio)
    (hn : 1 ≤ g.numberOfCylinders)
    (hc : g.clearanceVolume = calculateClearanceVolume g.bore g.stroke g.compressionRatio)
    (hd : g.displacement = calculateDisplacement g.bore g.stroke g.numberOfCylinders)
    (hm : g.maxCylinderVolume = g.displacement + g.clearanceVolume) :
    Geometry.calculateCylinderVolume g 0 = g.clearanceVolume ∧
    Geometry.calculateCylinderVolume g 180 =
      g.clearanceVolume + g.displacement / (g.numberOfCylinders : ℝ) ∧
    (Geometry.calculateCylinderVolume g 180 = g.maxCylinderVolume ↔
      g.numberOfCylinders = 1) := by
  have hbR : (0 : ℝ) < (g.bore : ℝ) := by exact_mod_cast hb
  have hsR : (0 : ℝ) < (g.stroke : ℝ) := by exact_mod_cast hs
  have hnR : (1 : ℝ) ≤ (g.numberOfCylinders : ℝ) := by exact_mod_cast hn
  have hnR0 : (0 : ℝ) < (g.numberOfCylinders : ℝ) := lt_of_lt_of_le one_pos hnR
  have h0 : Geometry.calculateCylinderVolume g 0 = g.clearanceVolume := by
    rw [geometryCylinderVolume_eq]
    rw [show (0 : ℝ) * Real.pi / 180 = 0 by ring]
    simp [Real.cos_zero, Real.sin_zero, Real.sqrt_one]
  have hsingle : g.displacement / (g.numberOfCylinders : ℝ) =
      Real.pi * ((g.bore : ℝ) / 2) ^ 2 * (g.stroke : ℝ) / 1000 := by
    rw [hd]
    unfold Geometry.calculateDisplacement
    field_simp
    ring
  have h180 : Geometry.calculateCylinderVolume g 180 =
      g.clearanceVolume + g.displacement / (g.numberOfCylinders : ℝ) := by
    rw [geometryCylinderVolume_eq]
    rw [show (180 : ℝ) * Real.pi / 180 = Real.pi by ring]
    rw [Real.cos_pi, Real.sin_pi]
    rw [hsingle]
    have hmax : g.clearanceVolume +
        Real.pi * ((g.bore : ℝ) / 2) ^ 2 *
          (((g.stroke : ℝ) / 2) *
            ((1 - (-1)) + (1 / ((g.connectingRodLength : ℝ) / ((g.stroke : ℝ) / 2))) *
              (1 - Real.sqrt (1 - (((g.connectingRodLength : ℝ) / ((g.stroke : ℝ) / 2)) *
                0) ^ 2)))) / 1000 =
        g.clearanceVolume + Real.pi * ((g.bore : ℝ) / 2) ^ 2 * (g.stroke : ℝ) / 1000 := by
      norm_num [Real.sqrt_one]
    rw [hmax, max_eq_left]
    nlinarith [Real.pi_pos, sq_nonneg ((g.bore : ℝ) / 2),
      mul_nonneg (mul_nonneg Real.pi_pos.le (sq_nonneg ((g.bore : ℝ) / 2))) hsR.le]
  refine ⟨h0, h180, ?_⟩
  have hD : (0 : ℝ) < g.displacement := by
    rw [hd]
    unfold Geometry.calculateDisplacement
    positivity
  rw [h180, hm]
  constructor
  · intro h
    have hdiv : g.displacement / (g.numberOfCylinders : ℝ) = g.displacement := by linarith
    have h2 : g.displacement = g.displacement * (g.numberOfCylinders : ℝ) :=
      (div_eq_iff hnR0.ne').mp hdiv
    have h3 : (1 : ℝ) = (g.numberOfCylinders : ℝ) :=
      mul_left_cancel₀ (ne_of_gt hD)
        (show g.displacement * 1 = g.displacement * (g.numberOfCylinders : ℝ) by linarith)
    exact_mod_cast h3.symm
  · intro h
    rw [h]
    push_cast
    ring

/-- C2 amended witness: a single-cylinder geometry, for which the 180°
volume does equal the maximum cylinder volume. -/
theorem c2_amended_tdc_exact_bdc_single_cylinder_witness :
    Geometry.calculateCylinderVolume
        ⟨86, 86, 129, 10, 1, calculateDisplacement 86 86 1, calculateClearanceVolume 86 86 10,
          calculateDisplacement 86 86 1 + calculateClearanceVolume 86 86 10⟩ 0 =
      Geometry.EngineGeometry.clearanceVolume
        ⟨86, 86, 129, 10, 1, calculateDisplacement 86 86 1, calculateClearanceVolume 86 86 10,
          calculateDisplacement 86 86 1 + calculateClearanceVolume 86 86 10⟩ ∧
    (Geometry.calculateCylinderVolume
        ⟨86, 86, 129, 10, 1, calculateDisplacement 86 86 1, calculateClearanceVolume 86 86 10,
          calculateDisplacement 86 86 1 + calculateClearanceVolume 86 86 10⟩ 180 =
      Geometry.EngineGeometry.maxCylinderVolume
        ⟨86, 86, 129, 10, 1, calculateDisplacement 86 86 1, calculateClearanceVolume 86 86 10,
          calculateDisplacement 86 86 1 + calculateClearanceVolume 86 86 10⟩ ↔
      Geometry.EngineGeometry.numberOfCylinders
        ⟨86, 86, 129, 10, 1, calculateDisplacement 86 86 1, calculateClearanceVolume 86 86 10,
          calculateDisplacement 86 86 1 + calculateClearanceVolume 86 86 10⟩ = 1) := by
  have h := c2_amended_tdc_exact_bdc_single_cylinder
    ⟨86, 86, 129, 10, 1, calculateDisplacement 86 86 1, calculateClearanceVolume 86 86 10,
      calculateDisplacement 86 86 1 + calculateClearanceVolume 86 86 10⟩
    (by norm_num) (by norm_num) (by norm_num) (by norm_num) rfl rfl rfl
  exact ⟨h.1, h.2.2⟩

/-- Past 720° the loop guard fails and nothing more is emitted. -/
theorem ottoLoop_past (v : Worker.SimParams) (fuel : ℕ) (a : ℚ) (st : Worker.SimState)
    (h : ¬ a ≤ 720) : Worker.ottoLoop v fuel a st = [] := by
  cases fuel with
  | zero => rfl
  | succ n => simp only [Worker.ottoLoop, if_neg h]

/-- One accepted loop iteration unfolds to a cons. -/
theorem ottoLoop_cons (v : Worker.SimParams) (fuel : ℕ) (a : ℚ) (st : Worker.SimState)
    (h : a ≤ 720) :
    Worker.ottoLoop v (fuel + 1) a st =
      (Worker.ottoStep v st a).2 ::
        Worker.ottoLoop v fuel (a + 1/10) (Worker.ottoStep v st a).1 := by
  simp only [Worker.ottoLoop, if_pos h]

/-- At exactly 360° (TDC) the worker's slider-crank volume collapses to
the clearance volume. -/
theorem workerCylinderVolume_at_360 (v : Worker.SimParams) (hs : 0 ≤ v.stroke) :
    Worker.workerCylinderVolume (((360 : ℚ)) : ℝ) (v.bore : ℝ) (v.stroke : ℝ)
      (Worker.wClearance v) = Worker.wClearance v := by
  have hsR : (0 : ℝ) ≤ (v.stroke : ℝ) := by exact_mod_cast hs
  rw [workerCylinderVolume_eq]
  rw [show (((360 : ℚ)) : ℝ) * Real.pi / 180 = 2 * Real.pi by push_cast; ring]
  rw [Real.cos_two_pi, Real.sin_two_pi]
  rw [show ((v.stroke : ℝ) / 2 * 0) ^ 2 = 0 by ring, sub_zero,
    Real.sqrt_sq (by linarith : (0 : ℝ) ≤ (v.stroke : ℝ) * 1.5)]
  ring

/-- `maxVolume / clearanceVolume` is exactly the compression-ratio
parameter, since `clearanceVolume = displacement / (CR - 1)`. -/
theorem wMaxVolume_div_wClearance (v : Worker.SimParams) (hb : 0 < v.bore)
    (hs : 0 < v.stroke) (hcr : 1 < v.compressionRatio) :
    Worker.wMaxVolume v / Worker.wClearance v = (v.compressionRatio : ℝ) := by
  have hbR : (0 : ℝ) < (v.bore : ℝ) := by exact_mod_cast hb
  have hsR : (0 : ℝ) < (v.stroke : ℝ) := by exact_mod_cast hs
  have hcrR : (1 : ℝ) < (v.compressionRatio : ℝ) := by exact_mod_cast hcr
  unfold Worker.wMaxVolume Worker.wClearance Worker.wDisplacement
  have hD : (0 : ℝ) < Real.pi * ((v.bore : ℝ) / 2) ^ 2 * (v.stroke : ℝ) := by positivity
  have hne : ((v.compressionRatio : ℝ) - 1) ≠ 0 := by linarith
  rw [div_eq_iff (div_ne_zero hD.ne' hne)]
  field_simp
  ring

/-- Pressure in the combustion branch (360° < a ≤ 370°). -/
theorem ottoPhase_combustion_pressure (v : Worker.SimParams) (st : Worker.SimState) (a : ℚ)
    (h1 : 360 < a) (h2 : a ≤ 370) :
    (Worker.ottoPhase v st a).pressure =
      ((101325 : ℝ) / 100000) * (v.compressionRatio : ℝ) ^ (1.35 : ℝ) *
        (1 + ((1.5 + ((v.load : ℝ) / 100 * 2.5)) - 1) * (((a : ℚ) : ℝ) - 360) / 10) := by
  simp only [Worker.ottoPhase]
  rw [if_neg (by rintro ⟨-, hx⟩; linarith), if_neg (by rintro ⟨-, hx⟩; linarith),
    if_pos (⟨h1, by linarith⟩ : 360 < a ∧ a ≤ 540), if_pos h2]
  ring

/-- Temperature in the combustion branch (360° < a ≤ 370°). -/
theorem ottoPhase_combustion_temperature (v : Worker.SimParams) (st : Worker.SimState) (a : ℚ)
    (h1 : 360 < a) (h2 : a ≤ 370) :
    (Worker.ottoPhase v st a).temperature =
      ((Worker.wIntakeTemp v : ℚ) : ℝ) * (v.compressionRatio : ℝ) ^ ((1.35 : ℝ) - 1) *
        (1 + ((1.5 + ((v.load : ℝ) / 100 * 2.5)) - 1) * (((a : ℚ) : ℝ) - 360) / 10) := by
  simp only [Worker.ottoPhase]
  rw [if_neg (by rintro ⟨-, hx⟩; linarith), if_neg (by rintro ⟨-, hx⟩; linarith),
    if_pos (⟨h1, by linarith⟩ : 360 < a ∧ a ≤ 540), if_pos h2]
  ring

/-- Heat release and its accumulation in the combustion branch. -/
theorem ottoPhase_combustion_heat (v : Worker.SimParams) (st : Worker.SimState) (a : ℚ)
    (h1 : 360 < a) (h2 : a ≤ 370) :
    (Worker.ottoPhase v st a).heatRelease =
      ((1.5 + ((v.load : ℝ) / 100 * 2.5)) - 1) * 1000 * (1/10 : ℝ) ∧
    (Worker.ottoPhase v st a).heatTotal =
      st.heatReleaseTotal + (Worker.ottoPhase v st a).heatRelease := by
  simp only [Worker.ottoPhase]
  rw [if_neg (by rintro ⟨-, hx⟩; linarith), if_neg (by rintro ⟨-, hx⟩; linarith),
    if_pos (⟨h1, by linarith⟩ : 360 < a ∧ a ≤ 540), if_pos h2]
  exact ⟨rfl, rfl⟩

/-- Pressure and temperature computed by the compression branch at
exactly 360°: the end-of-compression state. -/
theorem ottoPhase_at_360 (v : Worker.SimParams) (st : Worker.SimState) (hb : 0 < v.bore)
    (hs : 0 < v.stroke) (hcr : 1 < v.compressionRatio) :
    (Worker.ottoPhase v st 360).pressure =
      ((101325 : ℝ) / 100000) * (v.compressionRatio : ℝ) ^ (1.35 : ℝ) ∧
    (Worker.ottoPhase v st 360).temperature =
      ((Worker.wIntakeTemp v : ℚ) : ℝ) * (v.compressionRatio : ℝ) ^ ((1.35 : ℝ) - 1) := by
  simp only [Worker.ottoPhase]
  rw [if_neg (by rintro ⟨-, hx⟩; norm_num at hx), if_pos (by norm_num : (180 : ℚ) < 360 ∧ (360 : ℚ) ≤ 360)]
  rw [workerCylinderVolume_at_360 v hs.le, wMaxVolume_div_wClearance v hb hs hcr]
  exact ⟨rfl, rfl⟩

/-- C6: during the combustion sub-phase (360° < angle ≤ 370°) the
computed pressure and temperature equal the end-of-compression values
(the compression-branch values at exactly 360°) scaled by
`1 + (heatAdditionMultiplier − 1) · progress`, with
`progress = (angle − 360)/10` running linearly over the 10° window and
`heatAdditionMultiplier = 1.5 + 2.5 · load` (load as a fraction); the
heat released in the step is `(heatAdditionMultiplier − 1) · 1000 ·
stepSize` joules and is added onto the running cumulative heat
release. -/
theorem c6_combustion_scales_end_of_compression (v : Worker.SimParams)
    (st st' : Worker.SimState) (a : ℚ) (hb : 0 < v.bore) (hs : 0 < v.stroke)
    (hcr : 1 < v.compressionRatio) (h1 : 360 < a) (h2 : a ≤ 370) :
    (Worker.ottoPhase v st a).pressure =
      (Worker.ottoPhase v st' 360).pressure *
        (1 + ((1.5 + ((v.load : ℝ) / 100 * 2.5)) - 1) * (((a : ℚ) : ℝ) - 360) / 10) ∧
    (Worker.ottoPhase v st a).temperature =
      (Worker.ottoPhase v st' 360).temperature *
        (1 + ((1.5 + ((v.load : ℝ) / 100 * 2.5)) - 1) * (((a : ℚ) : ℝ) - 360) / 10) ∧
    (Worker.ottoPhase v st a).heatRelease =
      ((1.5 + ((v.load : ℝ) / 100 * 2.5)) - 1) * 1000 * (1/10 : ℝ) ∧
    (Worker.ottoPhase v st a).heatTotal =
      st.heatReleaseTotal + (Worker.ottoPhase v st a).heatRelease := by
  obtain ⟨h360p, h360t⟩ := ottoPhase_at_360 v st' hb hs hcr
  obtain ⟨hheat, htotal⟩ := ottoPhase_combustion_heat v st a h1 h2
  refine ⟨?_, ?_, hheat, htotal⟩
  · rw [ottoPhase_combustion_pressure v st a h1 h2, h360p]
  · rw [ottoPhase_combustion_temperature v st a h1 h2, h360t]

/-- C6 witness: the default parameter set at 365°. -/
theorem c6_combustion_scales_end_of_compression_witness :
    (Worker.ottoPhase ⟨86, 86, 21/2, 4, 2000, 75, 298⟩
        (Worker.initState ⟨86, 86, 21/2, 4, 2000, 75, 298⟩) 365).pressure =
      (Worker.ottoPhase ⟨86, 86, 21/2, 4, 2000, 75, 298⟩
          (Worker.initState ⟨86, 86, 21/2, 4, 2000, 75, 298⟩) 360).pressure *
        (1 + ((1.5 + (((75 : ℚ) : ℝ) / 100 * 2.5)) - 1) * ((((365 : ℚ)) : ℝ) - 360) / 10) ∧
    (Worker.ottoPhase ⟨86, 86, 21/2, 4, 2000, 75, 298⟩
        (Worker.initState ⟨86, 86, 21/2, 4, 2000, 75, 298⟩) 365).heatRelease =
      ((1.5 + (((75 : ℚ) : ℝ) / 100 * 2.5)) - 1) * 1000 * (1/10 : ℝ) := by
  have h := c6_combustion_scales_end_of_compression ⟨86, 86, 21/2, 4, 2000, 75, 298⟩
    (Worker.initState ⟨86, 86, 21/2, 4, 2000, 75, 298⟩)
    (Worker.initState ⟨86, 86, 21/2, 4, 2000, 75, 298⟩) 365
    (by norm_num) (by norm_num) (by norm_num) (by norm_num) (by norm_num)
  exact ⟨h.1, h.2.2.1⟩

/-- JS rounding never exceeds the argument by more than one half. -/
theorem jsRoundR_le (x : ℝ) : (jsRoundR x : ℝ) ≤ x + 1/2 := by
  unfold jsRoundR
  exact_mod_cast Int.floor_le (x + 1/2)

/-- JS rounding never falls below the argument by more than one half. -/
theorem jsRoundR_ge (x : ℝ) : x - 1/2 ≤ (jsRoundR x : ℝ) := by
  unfold jsRoundR
  have h := Int.sub_one_lt_floor (x + 1/2)
  push_cast at h ⊢
  linarith

/-- JS rounding is monotone. -/
theorem jsRoundR_mono {x y : ℝ} (h : x ≤ y) : (jsRoundR x : ℝ) ≤ (jsRoundR y : ℝ) := by
  unfold jsRoundR
  exact_mod_cast Int.floor_mono (by linarith)

/-- The exact (unrounded) cylinder volume at sample index `s` (angle
`s/10` degrees), in mm³, as the cycle loop computes it. -/
noncomputable def sampleVolume (v : Worker.SimParams) (s : ℕ) : ℝ :=
  Worker.workerCylinderVolume ((((s : ℚ)/10) : ℚ) : ℝ) (v.bore : ℝ) (v.stroke : ℝ)
    (Worker.wClearance v)

/-- The exact (unrounded) pressure at sample index `s`, in bar; the
phase-branch pressure never reads the carried state, so the initial
state serves as the canonical one. -/
noncomputable def samplePressure (v : Worker.SimParams) (s : ℕ) : ℝ :=
  (Worker.ottoPhase v (Worker.initState v) ((s : ℚ)/10)).pressure

/-- The display-rounded volume field of the record at sample `s` (cm³,
two decimals). -/
noncomputable def recVolume (v : Worker.SimParams) (s : ℕ) : ℝ :=
  (jsRoundR (sampleVolume v s / 10) : ℝ)/100

/-- The display-rounded pressure field of the record at sample `s` (bar,
three decimals). -/
noncomputable def recPressure (v : Worker.SimParams) (s : ℕ) : ℝ :=
  (jsRoundR (samplePressure v s * 1000) : ℝ)/1000

/-- No phase branch reads the carried state to produce the pressure. -/
theorem ottoPhase_pressure_state_free (v : Worker.SimParams)
    (st st' : Worker.SimState) (a : ℚ) :
    (Worker.ottoPhase v st a).pressure = (Worker.ottoPhase v st' a).pressure := by
  by_cases h1 : 0 ≤ a ∧ a ≤ 180
  · simp only [Worker.ottoPhase, if_pos h1]
  · by_cases h2 : 180 < a ∧ a ≤ 360
    · simp only [Worker.ottoPhase, if_neg h1, if_pos h2]
    · by_cases h3 : 360 < a ∧ a ≤ 540
      · by_cases h4 : a ≤ 370
        · simp only [Worker.ottoPhase, if_neg h1, if_neg h2, if_pos h3, if_pos h4]
        · simp only [Worker.ottoPhase, if_neg h1, if_neg h2, if_pos h3, if_neg h4]
      · simp only [Worker.ottoPhase, if_neg h1, if_neg h2, if_neg h3]

/-- The record's pressure field is the 3-decimal rounding of the phase
pressure. -/
theorem ottoStep_pressure_rec (v : Worker.SimParams) (st : Worker.SimState) (a : ℚ) :
    ((Worker.ottoStep v st a).2).pressure =
      (jsRoundR ((Worker.ottoPhase v st a).pressure * 1000) : ℝ)/1000 := rfl

/-- The record's volume field is the 2-decimal cm³ rounding of the
slider-crank volume. -/
theorem ottoStep_volume_rec (v : Worker.SimParams) (st : Worker.SimState) (a : ℚ) :
    ((Worker.ottoStep v st a).2).volume =
      (jsRoundR (Worker.workerCylinderVolume ((a : ℚ) : ℝ) (v.bore : ℝ) (v.stroke : ℝ)
        (Worker.wClearance v) / 10) : ℝ)/100 := rfl

/-- The pressure/volume pair recorded at sample `k` after any carried
state is the canonical rounded pair. -/
theorem ottoStep_pv (v : Worker.SimParams) (st : Worker.SimState) (k : ℕ) :
    ((Worker.ottoStep v st ((k : ℚ)/10)).2).pressure = recPressure v k ∧
    ((Worker.ottoStep v st ((k : ℚ)/10)).2).volume = recVolume v k := by
  constructor
  · rw [ottoStep_pressure_rec, recPressure, samplePressure,
      ottoPhase_pressure_state_free v st (Worker.initState v) ((k : ℚ)/10)]
  · rw [ottoStep_volume_rec]
    rfl

/-- The pressure/volume pairs recorded by the loop from sample `k` on. -/
theorem ottoLoop_map_pv (v : Worker.SimParams) :
    ∀ (fuel k : ℕ) (st : Worker.SimState), k ≤ 7200 → 7201 ≤ k + fuel →
      (Worker.ottoLoop v fuel ((k : ℚ)/10) st).map (fun r => (r.pressure, r.volume)) =
        (List.range (7201 - k)).map (fun i => (recPressure v (k + i), recVolume v (k + i))) := by
  intro fuel
  induction fuel with
  | zero => intro k st hk hf; omega
  | succ n ih =>
    intro k st hk hf
    have hkQ : (k : ℚ) ≤ 7200 := by exact_mod_cast hk
    have hguard : ((k : ℚ)/10) ≤ 720 := by linarith
    rw [ottoLoop_cons v n _ st hguard, List.map_cons]
    rw [show ((Worker.ottoStep v st ((k : ℚ)/10)).2.pressure,
        (Worker.ottoStep v st ((k : ℚ)/10)).2.volume) =
      (recPressure v k, recVolume v k) by
        rw [(ottoStep_pv v st k).1, (ottoStep_pv v st k).2]]
    by_cases hk' : k = 7200
    · subst hk'
      rw [show ((7200 : ℕ) : ℚ)/10 + 1/10 = ((7201 : ℕ) : ℚ)/10 by push_cast; ring]
      rw [ottoLoop_past v n _ _ (by push_cast; norm_num)]
      rw [show (7201 - 7200 : ℕ) = 1 by omega, show List.range 1 = [0] from rfl]
      simp only [List.map_cons, List.map_nil]
    · have hk1 : k + 1 ≤ 7200 := by omega
      rw [show ((k : ℕ) : ℚ)/10 + 1/10 = (((k + 1 : ℕ)) : ℚ)/10 by push_cast; ring]
      rw [ih (k + 1) _ hk1 (by omega)]
      rw [show 7201 - k = (7201 - (k + 1)) + 1 by omega, List.range_succ_eq_map,
        List.map_cons, List.map_map]
      refine congrArg₂ List.cons (by norm_num) (List.map_congr_left ?_)
      intro i _
      simp only [Function.comp_apply, Nat.succ_eq_add_one]
      rw [show k + (i + 1) = (k + 1) + i by omega]

/-- The cycle's pressure/volume pairs are the canonical rounded pairs at
samples 0, …, 7200. -/
theorem cycle_map_pv (v : Worker.SimParams) :
    (Worker.calculateOttoCycle v).map (fun r => (r.pressure, r.volume)) =
      (List.range 7201).map (fun s => (recPressure v s, recVolume v s)) := by
  have h := ottoLoop_map_pv v 7300 0 (Worker.initState v) (by norm_num) (by norm_num)
  rw [show ((0 : ℕ) : ℚ)/10 = (0 : ℚ) by norm_num, Nat.sub_zero] at h
  unfold Worker.calculateOttoCycle
  rw [h]
  apply List.map_congr_left
  intro i _
  rw [Nat.zero_add]

/-- The trapezoidal accumulation of `calculatePerformance`, on the
projected (pressure, volume) pairs. -/
noncomputable def pvWork : List (ℝ × ℝ) → ℝ := fun l =>
  ((l.zip l.tail).map (fun pr => ((pr.2.1 + pr.1.1) / 2) * (pr.2.2 - pr.1.2) * 100)).sum

/-- A left fold accumulating `+ g x` is the sum of the mapped list. -/
theorem foldl_add_map {α : Type} (g : α → ℝ) :
    ∀ (l : List α) (a : ℝ), l.foldl (fun acc x => acc + g x) a = a + (l.map g).sum := by
  intro l
  induction l with
  | nil => intro a; simp
  | cons x t ih =>
    intro a
    simp only [List.foldl_cons, List.map_cons, List.sum_cons, ih]
    ring

/-- `workPerCycle` reads only the pressure and volume fields. -/
theorem workPerCycle_eq_pvWork (l : List Worker.CycleRecord) :
    Worker.workPerCycle l = pvWork (l.map (fun r => (r.pressure, r.volume))) := by
  unfold Worker.workPerCycle pvWork
  rw [foldl_add_map (fun pr : Worker.CycleRecord × Worker.CycleRecord =>
      ((pr.2.pressure + pr.1.pressure) / 2) * (pr.2.volume - pr.1.volume) * 100), zero_add]
  rw [← List.map_tail, List.zip_map, List.map_map]
  rfl

/-- Two-element unfolding of the trapezoid accumulation. -/
theorem pvWork_cons₂ (x y : ℝ × ℝ) (t : List (ℝ × ℝ)) :
    pvWork (x :: y :: t) = ((y.1 + x.1) / 2) * (y.2 - x.2) * 100 + pvWork (y :: t) := by
  show (((x, y) :: ((y :: t).zip t)).map _).sum = _
  rw [List.map_cons, List.sum_cons]
  rfl

/-- The trapezoid accumulation over samples `k, …, k+n` as a closed
`Finset.range` sum. -/
theorem pvWork_range' (h : ℕ → ℝ × ℝ) :
    ∀ (n k : ℕ), pvWork ((List.range' k (n + 1)).map h) =
      ∑ i ∈ Finset.range n,
        ((h (k + i + 1)).1 + (h (k + i)).1) / 2 * ((h (k + i + 1)).2 - (h (k + i)).2) * 100 := by
  intro n
  induction n with
  | zero =>
    intro k
    simp [pvWork]
  | succ m ih =>
    intro k
    rw [List.range'_succ, List.map_cons, List.range'_succ, List.map_cons, pvWork_cons₂,
      ← List.map_cons h, ← List.range'_succ, ih (k + 1), Finset.sum_range_succ']
    have hterm : ∀ i : ℕ,
        ((h (k + (i + 1) + 1)).1 + (h (k + (i + 1))).1) / 2 *
            ((h (k + (i + 1) + 1)).2 - (h (k + (i + 1))).2) * 100 =
          ((h (k + 1 + i + 1)).1 + (h (k + 1 + i)).1) / 2 *
            ((h (k + 1 + i + 1)).2 - (h (k + 1 + i)).2) * 100 := by
      intro i
      rw [show k + (i + 1) = k + 1 + i by omega]
    rw [Finset.sum_congr rfl (fun i _ => hterm i)]
    rw [show k + 0 = k by omega, show k + 0 + 1 = k + 1 by omega]
    ring

/-- `workPerCycle` over the full cycle, as a sum over the 7200 trapezoid
indices of the rounded sample pressures and volumes. -/
theorem workPerCycle_sum (v : Worker.SimParams) :
    Worker.workPerCycle (Worker.calculateOttoCycle v) =
      ∑ i ∈ Finset.range 7200,
        (recPressure v (i + 1) + recPressure v i) / 2 *
          (recVolume v (i + 1) - recVolume v i) * 100 := by
  rw [workPerCycle_eq_pvWork, cycle_map_pv, show (7201 : ℕ) = 7200 + 1 by omega,
    List.range_eq_range', pvWork_range' (fun s => (recPressure v s, recVolume v s)) 7200 0]
  refine Finset.sum_congr rfl (fun i _ => ?_)
  norm_num

/-- Crank angle in radians at sample index `s`. -/
noncomputable def thetaS (s : ℕ) : ℝ := (s : ℝ)/10 * Real.pi / 180

/-- The sample volume in terms of the radian angle. -/
theorem sampleVolume_theta (v : Worker.SimParams) (s : ℕ) :
    sampleVolume v s = Worker.wClearance v + Real.pi * ((v.bore : ℝ)/2) ^ 2 *
      ((v.stroke : ℝ) * 1.5 + (v.stroke : ℝ)/2 -
        ((v.stroke : ℝ)/2 * Real.cos (thetaS s) +
          Real.sqrt (((v.stroke : ℝ) * 1.5) ^ 2 -
            ((v.stroke : ℝ)/2 * Real.sin (thetaS s)) ^ 2))) := by
  unfold sampleVolume thetaS
  rw [workerCylinderVolume_eq]
  rw [show ((((s : ℚ)/10 : ℚ)) : ℝ) * Real.pi / 180 = (s : ℝ)/10 * Real.pi / 180 by
    push_cast; ring]

/-- The slider-crank volume is symmetric about 360°: samples `s` and
`7200 − s` have the same exact volume. -/
theorem sampleVolume_mirror (v : Worker.SimParams) (s : ℕ) (hs : s ≤ 7200) :
    sampleVolume v (7200 - s) = sampleVolume v s := by
  rw [sampleVolume_theta, sampleVolume_theta]
  have hθ : thetaS (7200 - s) = 4 * Real.pi - thetaS s := by
    unfold thetaS
    rw [Nat.cast_sub hs]
    push_cast
    ring
  have hcos : Real.cos (thetaS (7200 - s)) = Real.cos (thetaS s) := by
    rw [hθ, show 4 * Real.pi - thetaS s = -(thetaS s - 2 * Real.pi - 2 * Real.pi) by ring,
      Real.cos_neg, Real.cos_sub_two_pi, Real.cos_sub_two_pi]
  have hsin : ((v.stroke : ℝ)/2 * Real.sin (thetaS (7200 - s))) ^ 2 =
      ((v.stroke : ℝ)/2 * Real.sin (thetaS s)) ^ 2 := by
    rw [hθ, show 4 * Real.pi - thetaS s = -(thetaS s - 2 * Real.pi - 2 * Real.pi) by ring,
      Real.sin_neg, Real.sin_sub_two_pi, Real.sin_sub_two_pi]
    ring
  rw [hcos, hsin]

/-- The square-root argument of the slider-crank expression, rewritten
through `sin² + cos² = 1`. -/
theorem sliderSqrtArg (st θ : ℝ) :
    (st * 1.5) ^ 2 - (st/2 * Real.sin θ) ^ 2 =
      8 * (st/2) ^ 2 + (st/2) ^ 2 * (Real.cos θ) ^ 2 := by
  have h := Real.sin_sq_add_cos_sq θ
  nlinarith [h]

/-- Core slider-crank monotonicity: with rod length three times the
crank radius, the piston-pin distance `r·c + √(8r² + r²c²)` is monotone
in `c = cos θ` on [−1, 1]. -/
theorem sliderPin_mono (r c1 c2 : ℝ) (hr : 0 < r) (h1 : -1 ≤ c1) (h1' : c1 ≤ 1)
    (h2 : -1 ≤ c2) (h2' : c2 ≤ 1) (hle : c2 ≤ c1) :
    r * c2 + Real.sqrt (8 * r ^ 2 + r ^ 2 * c2 ^ 2) ≤
      r * c1 + Real.sqrt (8 * r ^ 2 + r ^ 2 * c1 ^ 2) := by
  have ha1 : (0 : ℝ) ≤ 8 * r ^ 2 + r ^ 2 * c1 ^ 2 := by positivity
  have ha2 : (0 : ℝ) ≤ 8 * r ^ 2 + r ^ 2 * c2 ^ 2 := by positivity
  set S1 := Real.sqrt (8 * r ^ 2 + r ^ 2 * c1 ^ 2) with hS1def
  set S2 := Real.sqrt (8 * r ^ 2 + r ^ 2 * c2 ^ 2) with hS2def
  have hS1sq : S1 ^ 2 = 8 * r ^ 2 + r ^ 2 * c1 ^ 2 := Real.sq_sqrt ha1
  have hS2sq : S2 ^ 2 = 8 * r ^ 2 + r ^ 2 * c2 ^ 2 := Real.sq_sqrt ha2
  have hS1b : 2 * r ≤ S1 := by
    rw [hS1def]
    rw [show (2 : ℝ) * r = Real.sqrt ((2 * r) ^ 2) from (Real.sqrt_sq (by linarith)).symm]
    apply Real.sqrt_le_sqrt
    nlinarith
  have hS2b : 2 * r ≤ S2 := by
    rw [hS2def]
    rw [show (2 : ℝ) * r = Real.sqrt ((2 * r) ^ 2) from (Real.sqrt_sq (by linarith)).symm]
    apply Real.sqrt_le_sqrt
    nlinarith
  have hdiff : (S1 - S2) * (S1 + S2) = r ^ 2 * (c1 ^ 2 - c2 ^ 2) := by
    have : S1 ^ 2 - S2 ^ 2 = r ^ 2 * (c1 ^ 2 - c2 ^ 2) := by rw [hS1sq, hS2sq]; ring
    nlinarith [this]
  have hsum : (0 : ℝ) < S1 + S2 := by linarith
  have hkey : 0 ≤ (r * (c1 - c2) + (S1 - S2)) * (S1 + S2) := by
    have hexp : (r * (c1 - c2) + (S1 - S2)) * (S1 + S2) =
        r * (c1 - c2) * (S1 + S2) + r ^ 2 * (c1 ^ 2 - c2 ^ 2) := by
      rw [← hdiff]; ring
    rw [hexp]
    have hfac : r * (c1 - c2) * (S1 + S2) + r ^ 2 * (c1 ^ 2 - c2 ^ 2) =
        r * (c1 - c2) * ((S1 + S2) + r * (c1 + c2)) := by ring
    rw [hfac]
    apply mul_nonneg (mul_nonneg hr.le (by linarith))
    nlinarith
  nlinarith [hkey, hsum]

/-- The exact sample volume is monotone nondecreasing over the intake
half-revolution [0°, 180°]. -/
theorem sampleVolume_mono (v : Worker.SimParams) (hs : 0 < v.stroke) {s t : ℕ}
    (hst : s ≤ t) (ht : t ≤ 1800) :
    sampleVolume v s ≤ sampleVolume v t := by
  have hsR : (0 : ℝ) < (v.stroke : ℝ) := by exact_mod_cast hs
  have hθs0 : (0 : ℝ) ≤ thetaS s := by
    unfold thetaS
    positivity
  have hθtπ : thetaS t ≤ Real.pi := by
    unfold thetaS
    have h1 : (t : ℝ) ≤ 1800 := by exact_mod_cast ht
    nlinarith [Real.pi_pos]
  have hθst : thetaS s ≤ thetaS t := by
    unfold thetaS
    have h1 : (s : ℝ) ≤ (t : ℝ) := by exact_mod_cast hst
    nlinarith [Real.pi_pos]
  have hc : Real.cos (thetaS t) ≤ Real.cos (thetaS s) :=
    Real.cos_le_cos_of_nonneg_of_le_pi hθs0 hθtπ hθst
  rw [sampleVolume_theta, sampleVolume_theta]
  rw [sliderSqrtArg, sliderSqrtArg]
  have hmono := sliderPin_mono ((v.stroke : ℝ)/2) (Real.cos (thetaS s)) (Real.cos (thetaS t))
    (by linarith) (Real.neg_one_le_cos _) (Real.cos_le_one _)
    (Real.neg_one_le_cos _) (Real.cos_le_one _) hc
  have hA : (0 : ℝ) ≤ Real.pi * ((v.bore : ℝ)/2) ^ 2 := by positivity
  nlinarith [hmono, hA]

/-- At sample 0 (TDC) the exact volume is the clearance volume. -/
theorem sampleVolume_at_0 (v : Worker.SimParams) (hs : 0 ≤ v.stroke) :
    sampleVolume v 0 = Worker.wClearance v := by
  have hsR : (0 : ℝ) ≤ (v.stroke : ℝ) := by exact_mod_cast hs
  rw [sampleVolume_theta]
  rw [show thetaS 0 = 0 by unfold thetaS; norm_num]
  rw [Real.cos_zero, Real.sin_zero]
  rw [show ((v.stroke : ℝ)/2 * 0) ^ 2 = 0 by ring, sub_zero,
    Real.sqrt_sq (by linarith : (0 : ℝ) ≤ (v.stroke : ℝ) * 1.5)]
  ring

/-- At sample 1800 (BDC) the exact volume is clearance plus the
single-cylinder displacement. -/
theorem sampleVolume_at_1800 (v : Worker.SimParams) (hs : 0 ≤ v.stroke) :
    sampleVolume v 1800 = Worker.wClearance v + Worker.wDisplacement v := by
  have hsR : (0 : ℝ) ≤ (v.stroke : ℝ) := by exact_mod_cast hs
  rw [sampleVolume_theta]
  rw [show thetaS 1800 = Real.pi by unfold thetaS; push_cast; ring]
  rw [Real.cos_pi, Real.sin_pi]
  rw [show ((v.stroke : ℝ)/2 * 0) ^ 2 = 0 by ring, sub_zero,
    Real.sqrt_sq (by linarith : (0 : ℝ) ≤ (v.stroke : ℝ) * 1.5)]
  unfold Worker.wDisplacement
  ring

/-- At sample 5400 (540°, BDC again) the exact volume is clearance plus
displacement. -/
theorem sampleVolume_at_5400 (v : Worker.SimParams) (hs : 0 ≤ v.stroke) :
    sampleVolume v 5400 = Worker.wClearance v + Worker.wDisplacement v := by
  have h := sampleVolume_mirror v 1800 (by omega)
  rw [show (7200 - 1800 : ℕ) = 5400 by omega] at h
  rw [h, sampleVolume_at_1800 v hs]

/-- At sample 3600 (360°, TDC firing) the exact volume is the clearance
volume. -/
theorem sampleVolume_at_3600 (v : Worker.SimParams) (hs : 0 ≤ v.stroke) :
    sampleVolume v 3600 = Worker.wClearance v := by
  have h : sampleVolume v 3600 =
      Worker.workerCylinderVolume (((360 : ℚ)) : ℝ) (v.bore : ℝ) (v.stroke : ℝ)
        (Worker.wClearance v) := by
    unfold sampleVolume
    norm_num
  rw [h, workerCylinderVolume_at_360 v hs]

/-- Every exact sample volume is at least the clearance volume. -/
theorem sampleVolume_ge (v : Worker.SimParams) (hs : 0 ≤ v.stroke) (s : ℕ) :
    Worker.wClearance v ≤ sampleVolume v s := by
  have hsR : (0 : ℝ) ≤ (v.stroke : ℝ) := by exact_mod_cast hs
  rw [sampleVolume_theta, sliderSqrtArg]
  have hS : Real.sqrt (8 * ((v.stroke : ℝ)/2) ^ 2 +
      ((v.stroke : ℝ)/2) ^ 2 * (Real.cos (thetaS s)) ^ 2) ≤ (v.stroke : ℝ) * 1.5 := by
    rw [show ((v.stroke : ℝ)) * 1.5 = Real.sqrt (((v.stroke : ℝ) * 1.5) ^ 2) from
      (Real.sqrt_sq (by linarith)).symm]
    apply Real.sqrt_le_sqrt
    nlinarith [Real.cos_sq_le_one (thetaS s), sq_nonneg (v.stroke : ℝ)]
  have hc : (v.stroke : ℝ)/2 * Real.cos (thetaS s) ≤ (v.stroke : ℝ)/2 := by
    nlinarith [Real.cos_le_one (thetaS s)]
  nlinarith [mul_nonneg Real.pi_pos.le (sq_nonneg ((v.bore : ℝ)/2)), hS, hc]

/-- Every exact sample volume is at most clearance plus displacement. -/
theorem sampleVolume_le (v : Worker.SimParams) (hs : 0 ≤ v.stroke) (s : ℕ) :
    sampleVolume v s ≤ Worker.wClearance v + Worker.wDisplacement v := by
  have hsR : (0 : ℝ) ≤ (v.stroke : ℝ) := by exact_mod_cast hs
  rw [sampleVolume_theta, sliderSqrtArg]
  have hS : (v.stroke : ℝ) - (v.stroke : ℝ)/2 * Real.cos (thetaS s) ≤
      Real.sqrt (8 * ((v.stroke : ℝ)/2) ^ 2 +
        ((v.stroke : ℝ)/2) ^ 2 * (Real.cos (thetaS s)) ^ 2) := by
    rcases le_or_lt ((v.stroke : ℝ) - (v.stroke : ℝ)/2 * Real.cos (thetaS s)) 0 with h | h
    · exact le_trans h (Real.sqrt_nonneg _)
    · rw [← Real.sqrt_sq h.le]
      apply Real.sqrt_le_sqrt
      nlinarith [Real.neg_one_le_cos (thetaS s), Real.cos_le_one (thetaS s)]
  unfold Worker.wDisplacement
  nlinarith [mul_nonneg Real.pi_pos.le (sq_nonneg ((v.bore : ℝ)/2)), hS]

set_option maxHeartbeats 1000000 in
/-- At sample 3499 (349.9°, near TDC) the exact volume exceeds the
clearance volume by at most 1.3 % of the displacement. -/
theorem sampleVolume_3499_le (v : Worker.SimParams) (hs : 0 < v.stroke) :
    sampleVolume v 3499 ≤ Worker.wClearance v + (13/1000) * Worker.wDisplacement v := by
  have hsR : (0 : ℝ) < (v.stroke : ℝ) := by exact_mod_cast hs
  rw [sampleVolume_theta]
  have hθ : thetaS 3499 = 2 * Real.pi - 101 * Real.pi / 1800 := by
    unfold thetaS
    push_cast
    ring
  have hcos : Real.cos (thetaS 3499) = Real.cos (101 * Real.pi / 1800) := by
    rw [hθ, show 2 * Real.pi - 101 * Real.pi / 1800 =
      -(101 * Real.pi / 1800 - 2 * Real.pi) by ring, Real.cos_neg, Real.cos_sub_two_pi]
  have hsin2 : (Real.sin (thetaS 3499)) ^ 2 = (Real.sin (101 * Real.pi / 1800)) ^ 2 := by
    rw [hθ, show 2 * Real.pi - 101 * Real.pi / 1800 =
      -(101 * Real.pi / 1800 - 2 * Real.pi) by ring, Real.sin_neg, Real.sin_sub_two_pi]
    ring
  have hy0 : (0 : ℝ) ≤ 101 * Real.pi / 1800 := by positivity
  have hyb : 101 * Real.pi / 1800 ≤ 0.17628 := by nlinarith [Real.pi_lt_3141593]
  have hy2 : (101 * Real.pi / 1800) ^ 2 ≤ 0.0310747 := by nlinarith
  have hcos_lb : 1 - (101 * Real.pi / 1800) ^ 2 / 2 ≤ Real.cos (101 * Real.pi / 1800) :=
    Real.one_sub_sq_div_two_le_cos
  have hsin_ub : (Real.sin (101 * Real.pi / 1800)) ^ 2 ≤ (101 * Real.pi / 1800) ^ 2 := by
    nlinarith [Real.sin_sq_add_cos_sq (101 * Real.pi / 1800),
      Real.cos_le_one (101 * Real.pi / 1800), hcos_lb]
  have harg : ((v.stroke : ℝ) * 1.5) ^ 2 -
      ((v.stroke : ℝ)/2 * Real.sin (thetaS 3499)) ^ 2 =
      9 * ((v.stroke : ℝ)/2) ^ 2 -
        ((v.stroke : ℝ)/2) ^ 2 * (Real.sin (101 * Real.pi / 1800)) ^ 2 := by
    have h2 : ((v.stroke : ℝ)/2 * Real.sin (thetaS 3499)) ^ 2 =
        ((v.stroke : ℝ)/2) ^ 2 * (Real.sin (thetaS 3499)) ^ 2 := by ring
    rw [h2, hsin2]
    ring
  have hsub : 0 ≤ 3 * ((v.stroke : ℝ)/2) -
      ((v.stroke : ℝ)/2) * (Real.sin (101 * Real.pi / 1800)) ^ 2 / 3 := by
    nlinarith [Real.sin_sq_le_one (101 * Real.pi / 1800)]
  have hsqrt_lb : 3 * ((v.stroke : ℝ)/2) -
      ((v.stroke : ℝ)/2) * (Real.sin (101 * Real.pi / 1800)) ^ 2 / 3 ≤
      Real.sqrt (9 * ((v.stroke : ℝ)/2) ^ 2 -
        ((v.stroke : ℝ)/2) ^ 2 * (Real.sin (101 * Real.pi / 1800)) ^ 2) := by
    rw [← Real.sqrt_sq hsub]
    apply Real.sqrt_le_sqrt
    nlinarith [Real.sin_sq_le_one (101 * Real.pi / 1800),
      sq_nonneg (Real.sin (101 * Real.pi / 1800)), sq_nonneg ((v.stroke : ℝ)/2),
      sq_nonneg (((v.stroke : ℝ)/2) * (Real.sin (101 * Real.pi / 1800)) ^ 2)]
  rw [harg, hcos]
  have hA : (0 : ℝ) ≤ Real.pi * ((v.bore : ℝ)/2) ^ 2 := by positivity
  have hcos' : ((v.stroke : ℝ)/2) * (1 - (101 * Real.pi / 1800) ^ 2 / 2) ≤
      ((v.stroke : ℝ)/2) * Real.cos (101 * Real.pi / 1800) := by nlinarith
  have hsin3 : ((v.stroke : ℝ)/2) * (Real.sin (101 * Real.pi / 1800)) ^ 2 / 3 ≤
      ((v.stroke : ℝ)/2) * (101 * Real.pi / 1800) ^ 2 / 3 := by nlinarith
  have hpos_ub : (v.stroke : ℝ) * 1.5 + (v.stroke : ℝ)/2 -
      ((v.stroke : ℝ)/2 * Real.cos (101 * Real.pi / 1800) +
        Real.sqrt (9 * ((v.stroke : ℝ)/2) ^ 2 -
          ((v.stroke : ℝ)/2) ^ 2 * (Real.sin (101 * Real.pi / 1800)) ^ 2)) ≤
      ((v.stroke : ℝ)/2) * ((101 * Real.pi / 1800) ^ 2 * (5/6)) := by
    linarith [hsqrt_lb, hcos', hsin3]
  have hbound : ((v.stroke : ℝ)/2) * ((101 * Real.pi / 1800) ^ 2 * (5/6)) ≤
      (13/1000) * (v.stroke : ℝ) := by nlinarith
  have hmul := mul_le_mul_of_nonneg_left (le_trans hpos_ub hbound) hA
  unfold Worker.wDisplacement
  nlinarith [hmul]

set_option maxHeartbeats 1000000 in
/-- The last intake step (179.9° to 180°) changes the exact volume by at
most one millionth of the displacement. -/
theorem sampleVolume_1800_sub_1799 (v : Worker.SimParams) (hs : 0 < v.stroke) :
    sampleVolume v 1800 - sampleVolume v 1799 ≤ (1/1000000) * Worker.wDisplacement v := by
  have hsR : (0 : ℝ) < (v.stroke : ℝ) := by exact_mod_cast hs
  rw [sampleVolume_at_1800 v hs.le, sampleVolume_theta]
  have hθ : thetaS 1799 = Real.pi - Real.pi / 1800 := by
    unfold thetaS
    push_cast
    ring
  have hcos : Real.cos (thetaS 1799) = -Real.cos (Real.pi / 1800) := by
    rw [hθ, Real.cos_pi_sub]
  have hz0 : (0 : ℝ) ≤ Real.pi / 1800 := by positivity
  have hzb : Real.pi / 1800 ≤ 0.001746 := by nlinarith [Real.pi_lt_3141593]
  have hz2 : (Real.pi / 1800) ^ 2 ≤ 0.00000305 := by nlinarith
  have hcos_lb : 1 - (Real.pi / 1800) ^ 2 / 2 ≤ Real.cos (Real.pi / 1800) :=
    Real.one_sub_sq_div_two_le_cos
  have hA : (0 : ℝ) ≤ Real.pi * ((v.bore : ℝ)/2) ^ 2 := by positivity
  have hsqrt_ub : Real.sqrt (((v.stroke : ℝ) * 1.5) ^ 2 -
      ((v.stroke : ℝ)/2 * Real.sin (thetaS 1799)) ^ 2) ≤ (v.stroke : ℝ) * 1.5 := by
    calc Real.sqrt (((v.stroke : ℝ) * 1.5) ^ 2 -
        ((v.stroke : ℝ)/2 * Real.sin (thetaS 1799)) ^ 2)
        ≤ Real.sqrt (((v.stroke : ℝ) * 1.5) ^ 2) := by
          apply Real.sqrt_le_sqrt
          nlinarith [sq_nonneg ((v.stroke : ℝ)/2 * Real.sin (thetaS 1799))]
      _ = (v.stroke : ℝ) * 1.5 := Real.sqrt_sq (by linarith)
  have hstep : (v.stroke : ℝ) - ((v.stroke : ℝ) * 1.5 + (v.stroke : ℝ)/2 -
      ((v.stroke : ℝ)/2 * Real.cos (thetaS 1799) +
        Real.sqrt (((v.stroke : ℝ) * 1.5) ^ 2 -
          ((v.stroke : ℝ)/2 * Real.sin (thetaS 1799)) ^ 2))) ≤
      (v.stroke : ℝ) * ((Real.pi / 1800) ^ 2 / 4) := by
    rw [hcos]
    have h1 : ((v.stroke : ℝ)/2) * (1 - (Real.pi / 1800) ^ 2 / 2) ≤
        ((v.stroke : ℝ)/2) * Real.cos (Real.pi / 1800) := by nlinarith
    linarith [hsqrt_ub, h1]
  have hb : (v.stroke : ℝ) * ((Real.pi / 1800) ^ 2 / 4) ≤
      (1/1000000) * (v.stroke : ℝ) := by nlinarith
  have hmul := mul_le_mul_of_nonneg_left (le_trans hstep hb) hA
  unfold Worker.wDisplacement
  nlinarith [hmul]

/-- Pressure in the intake branch (0° ≤ a ≤ 180°): isobaric at
`intakePressure / 100000` bar. -/
theorem ottoPhase_intake_pressure (v : Worker.SimParams) (st : Worker.SimState) (a : ℚ)
    (h1 : 0 ≤ a) (h2 : a ≤ 180) :
    (Worker.ottoPhase v st a).pressure = (101325 : ℝ) / 100000 := by
  simp only [Worker.ottoPhase]
  rw [if_pos (⟨h1, h2⟩ : 0 ≤ a ∧ a ≤ 180)]

/-- Pressure in the compression branch (180° < a ≤ 360°): isentropic with
the instantaneous ratio `maxVolume / volume`. -/
theorem ottoPhase_compression_pressure (v : Worker.SimParams) (st : Worker.SimState) (a : ℚ)
    (h1 : 180 < a) (h2 : a ≤ 360) :
    (Worker.ottoPhase v st a).pressure =
      (101325 : ℝ) / 100000 * (Worker.wMaxVolume v /
        Worker.workerCylinderVolume ((a : ℝ)) (v.bore : ℝ) (v.stroke : ℝ)
          (Worker.wClearance v)) ^ (1.35 : ℝ) := by
  simp only [Worker.ottoPhase]
  rw [if_neg (by rintro ⟨-, hx⟩; linarith), if_pos (⟨h1, h2⟩ : 180 < a ∧ a ≤ 360)]

/-- Pressure in the expansion branch (370° < a ≤ 540°): the peak pressure
relaxed isentropically by the instantaneous expansion ratio
`volume / clearanceVolume`. -/
theorem ottoPhase_expansion_pressure (v : Worker.SimParams) (st : Worker.SimState) (a : ℚ)
    (h1 : 370 < a) (h2 : a ≤ 540) :
    (Worker.ottoPhase v st a).pressure =
      (101325 : ℝ) / 100000 * (v.compressionRatio : ℝ) ^ (1.35 : ℝ) *
          (1.5 + (v.load : ℝ) / 100 * 2.5) /
        (Worker.workerCylinderVolume ((a : ℝ)) (v.bore : ℝ) (v.stroke : ℝ)
            (Worker.wClearance v) / Worker.wClearance v) ^ (1.35 : ℝ) := by
  simp only [Worker.ottoPhase]
  rw [if_neg (by rintro ⟨-, hx⟩; linarith), if_neg (by rintro ⟨-, hx⟩; linarith),
    if_pos (⟨by linarith, h2⟩ : 360 < a ∧ a ≤ 540), if_neg (by linarith : ¬ a ≤ 370)]

/-- Pressure in the exhaust branch (a > 540°): constant
`intakePressure / 100000 · 1.05` bar. -/
theorem ottoPhase_exhaust_pressure (v : Worker.SimParams) (st : Worker.SimState) (a : ℚ)
    (h1 : 540 < a) :
    (Worker.ottoPhase v st a).pressure = (101325 : ℝ) / 100000 * 1.05 := by
  simp only [Worker.ottoPhase]
  rw [if_neg (by rintro ⟨-, hx⟩; linarith), if_neg (by rintro ⟨-, hx⟩; linarith),
    if_neg (by rintro ⟨-, hx⟩; linarith)]

/-- The compression-branch (isentropic) pressure at sample `s`, in bar:
`(intakePressure/100000) · (maxVolume / volume(s))^1.35`. -/
noncomputable def Pc (v : Worker.SimParams) (s : ℕ) : ℝ :=
  (101325 : ℝ) / 100000 * (Worker.wMaxVolume v / sampleVolume v s) ^ (1.35 : ℝ)

/-- The heat-addition multiplier `1.5 + load/100 · 2.5`
(simulation.worker.js:153). -/
noncomputable def multR (v : Worker.SimParams) : ℝ :=
  1.5 + (v.load : ℝ) / 100 * 2.5

/-- The single-cylinder displacement is positive for positive bore and
stroke. -/
theorem wDisplacement_pos (v : Worker.SimParams) (hb : 0 < v.bore) (hsk : 0 < v.stroke) :
    0 < Worker.wDisplacement v := by
  have hbR : (0 : ℝ) < (v.bore : ℝ) := by exact_mod_cast hb
  have hsR : (0 : ℝ) < (v.stroke : ℝ) := by exact_mod_cast hsk
  unfold Worker.wDisplacement
  positivity

/-- The clearance volume is positive when the compression ratio exceeds 1. -/
theorem wClearance_pos (v : Worker.SimParams) (hb : 0 < v.bore) (hsk : 0 < v.stroke)
    (hcr : 1 < v.compressionRatio) : 0 < Worker.wClearance v := by
  have hcrR : (1 : ℝ) < (v.compressionRatio : ℝ) := by exact_mod_cast hcr
  unfold Worker.wClearance
  exact div_pos (wDisplacement_pos v hb hsk) (by linarith)

/-- Every exact sample volume is positive. -/
theorem sampleVolume_pos (v : Worker.SimParams) (hb : 0 < v.bore) (hsk : 0 < v.stroke)
    (hcr : 1 < v.compressionRatio) (s : ℕ) : 0 < sampleVolume v s :=
  lt_of_lt_of_le (wClearance_pos v hb hsk hcr) (sampleVolume_ge v hsk.le s)

/-- The maximum volume is positive. -/
theorem wMaxVolume_pos (v : Worker.SimParams) (hb : 0 < v.bore) (hsk : 0 < v.stroke)
    (hcr : 1 < v.compressionRatio) : 0 < Worker.wMaxVolume v := by
  have h1 := wDisplacement_pos v hb hsk
  have h2 := wClearance_pos v hb hsk hcr
  unfold Worker.wMaxVolume
  linarith

/-- Exact pressure on the intake half-revolution (s ≤ 1800). -/
theorem samplePressure_intake (v : Worker.SimParams) {s : ℕ} (h : s ≤ 1800) :
    samplePressure v s = (101325 : ℝ) / 100000 := by
  have hq : ((s : ℚ)) ≤ 1800 := by exact_mod_cast h
  unfold samplePressure
  exact ottoPhase_intake_pressure v _ _ (by positivity) (by linarith)

/-- Exact pressure on the compression half-revolution (1800 < s ≤ 3600). -/
theorem samplePressure_compression (v : Worker.SimParams) {s : ℕ}
    (h1 : 1800 < s) (h2 : s ≤ 3600) :
    samplePressure v s = Pc v s := by
  have hq1 : (1800 : ℚ) < (s : ℚ) := by exact_mod_cast h1
  have hq2 : ((s : ℚ)) ≤ 3600 := by exact_mod_cast h2
  unfold samplePressure Pc sampleVolume
  exact ottoPhase_compression_pressure v _ _ (by linarith) (by linarith)

/-- Exact pressure on the exhaust half-revolutions (s > 5400). -/
theorem samplePressure_exhaust (v : Worker.SimParams) {s : ℕ} (h : 5400 < s) :
    samplePressure v s = (101325 : ℝ) / 100000 * 1.05 := by
  have hq : (5400 : ℚ) < (s : ℚ) := by exact_mod_cast h
  unfold samplePressure
  exact ottoPhase_exhaust_pressure v _ _ (by linarith)

/-- Exact pressure in the combustion window (3600 < s ≤ 3700). -/
theorem samplePressure_combustion (v : Worker.SimParams) {s : ℕ}
    (h1 : 3600 < s) (h2 : s ≤ 3700) :
    samplePressure v s =
      (101325 : ℝ) / 100000 * (v.compressionRatio : ℝ) ^ (1.35 : ℝ) *
        (1 + (multR v - 1) * ((s : ℝ) / 10 - 360) / 10) := by
  have hq1 : (3600 : ℚ) < (s : ℚ) := by exact_mod_cast h1
  have hq2 : ((s : ℚ)) ≤ 3700 := by exact_mod_cast h2
  unfold samplePressure
  rw [ottoPhase_combustion_pressure v _ _ (by linarith) (by linarith)]
  unfold multR
  push_cast
  ring

/-- Exact pressure in the expansion window (3700 < s ≤ 5400): the
heat-addition multiplier times the isentropic compression pressure at the
same volume. -/
theorem samplePressure_expansion (v : Worker.SimParams) (hb : 0 < v.bore)
    (hsk : 0 < v.stroke) (hcr : 1 < v.compressionRatio) {s : ℕ}
    (h1 : 3700 < s) (h2 : s ≤ 5400) :
    samplePressure v s = multR v * Pc v s := by
  have hq1 : (3700 : ℚ) < (s : ℚ) := by exact_mod_cast h1
  have hq2 : ((s : ℚ)) ≤ 5400 := by exact_mod_cast h2
  have hVc := wClearance_pos v hb hsk hcr
  have hV := sampleVolume_pos v hb hsk hcr s
  have hVmax := wMaxVolume_pos v hb hsk hcr
  have hpow : (0 : ℝ) < (sampleVolume v s / Worker.wClearance v) ^ (1.35 : ℝ) :=
    Real.rpow_pos_of_pos (div_pos hV hVc) _
  have hkey : (Worker.wMaxVolume v / sampleVolume v s) ^ (1.35 : ℝ) *
      (sampleVolume v s / Worker.wClearance v) ^ (1.35 : ℝ) =
      (Worker.wMaxVolume v / Worker.wClearance v) ^ (1.35 : ℝ) := by
    rw [← Real.mul_rpow (by positivity) (by positivity)]
    congr 1
    field_simp
  unfold samplePressure
  rw [ottoPhase_expansion_pressure v _ _ (by linarith) (by linarith)]
  rw [show Worker.workerCylinderVolume ((((s : ℚ) / 10 : ℚ)) : ℝ) (v.bore : ℝ)
      (v.stroke : ℝ) (Worker.wClearance v) = sampleVolume v s from rfl]
  rw [div_eq_iff hpow.ne']
  unfold Pc multR
  rw [show (1.5 + (v.load : ℝ) / 100 * 2.5) *
      ((101325 : ℝ) / 100000 * (Worker.wMaxVolume v / sampleVolume v s) ^ (1.35 : ℝ)) *
      (sampleVolume v s / Worker.wClearance v) ^ (1.35 : ℝ) =
      (1.5 + (v.load : ℝ) / 100 * 2.5) * ((101325 : ℝ) / 100000) *
        ((Worker.wMaxVolume v / sampleVolume v s) ^ (1.35 : ℝ) *
          (sampleVolume v s / Worker.wClearance v) ^ (1.35 : ℝ)) by ring, hkey,
    wMaxVolume_div_wClearance v hb hsk hcr]
  ring

/-- The compression pressure is positive. -/
theorem Pc_pos (v : Worker.SimParams) (hb : 0 < v.bore) (hsk : 0 < v.stroke)
    (hcr : 1 < v.compressionRatio) (s : ℕ) : 0 < Pc v s := by
  have hV := sampleVolume_pos v hb hsk hcr s
  have hVmax := wMaxVolume_pos v hb hsk hcr
  unfold Pc
  positivity

/-- The compression pressure is at least the intake pressure. -/
theorem Pc_ge (v : Worker.SimParams) (hb : 0 < v.bore) (hsk : 0 < v.stroke)
    (hcr : 1 < v.compressionRatio) (s : ℕ) : (101325 : ℝ) / 100000 ≤ Pc v s := by
  have hV := sampleVolume_pos v hb hsk hcr s
  have hle := sampleVolume_le v hsk.le s
  have h1 : (1 : ℝ) ≤ Worker.wMaxVolume v / sampleVolume v s := by
    rw [le_div_iff hV]
    unfold Worker.wMaxVolume
    linarith
  have h2 : (1 : ℝ) ≤ (Worker.wMaxVolume v / sampleVolume v s) ^ (1.35 : ℝ) :=
    Real.one_le_rpow h1 (by norm_num)
  unfold Pc
  nlinarith

/-- The compression pressure never exceeds the end-of-compression value
`(intakePressure/100000) · CR^1.35`. -/
theorem Pc_le_max (v : Worker.SimParams) (hb : 0 < v.bore) (hsk : 0 < v.stroke)
    (hcr : 1 < v.compressionRatio) (s : ℕ) :
    Pc v s ≤ (101325 : ℝ) / 100000 * (v.compressionRatio : ℝ) ^ (1.35 : ℝ) := by
  have hVc := wClearance_pos v hb hsk hcr
  have hVmax := wMaxVolume_pos v hb hsk hcr
  have hgeV := sampleVolume_ge v hsk.le s
  have hdivle : Worker.wMaxVolume v / sampleVolume v s ≤
      Worker.wMaxVolume v / Worker.wClearance v := by
    gcongr
  have hpow : (Worker.wMaxVolume v / sampleVolume v s) ^ (1.35 : ℝ) ≤
      (Worker.wMaxVolume v / Worker.wClearance v) ^ (1.35 : ℝ) :=
    Real.rpow_le_rpow (div_pos hVmax (sampleVolume_pos v hb hsk hcr s)).le hdivle
      (by norm_num)
  rw [wMaxVolume_div_wClearance v hb hsk hcr] at hpow
  unfold Pc
  nlinarith

/-- The compression pressure inherits the 720°-mirror symmetry of the
volume. -/
theorem Pc_mirror (v : Worker.SimParams) (s : ℕ) (h : s ≤ 7200) :
    Pc v (7200 - s) = Pc v s := by
  unfold Pc
  rw [sampleVolume_mirror v s h]

/-- At BDC (sample 1800) the compression pressure equals the intake
pressure. -/
theorem Pc_at_1800 (v : Worker.SimParams) (hb : 0 < v.bore) (hsk : 0 < v.stroke)
    (hcr : 1 < v.compressionRatio) : Pc v 1800 = (101325 : ℝ) / 100000 := by
  have hVmax := wMaxVolume_pos v hb hsk hcr
  unfold Pc
  rw [sampleVolume_at_1800 v hsk.le,
    show Worker.wClearance v + Worker.wDisplacement v = Worker.wMaxVolume v by
      unfold Worker.wMaxVolume; ring,
    div_self hVmax.ne', Real.one_rpow]
  norm_num

/-- At the second BDC (sample 5400) the compression pressure equals the
intake pressure. -/
theorem Pc_at_5400 (v : Worker.SimParams) (hb : 0 < v.bore) (hsk : 0 < v.stroke)
    (hcr : 1 < v.compressionRatio) : Pc v 5400 = (101325 : ℝ) / 100000 := by
  have hVmax := wMaxVolume_pos v hb hsk hcr
  unfold Pc
  rw [sampleVolume_at_5400 v hsk.le,
    show Worker.wClearance v + Worker.wDisplacement v = Worker.wMaxVolume v by
      unfold Worker.wMaxVolume; ring,
    div_self hVmax.ne', Real.one_rpow]
  norm_num

/-- On all of [1800, 3600] the exact pressure is the isentropic value
`Pc` (at 1800 the intake value coincides with it). -/
theorem samplePressure_Pc (v : Worker.SimParams) (hb : 0 < v.bore) (hsk : 0 < v.stroke)
    (hcr : 1 < v.compressionRatio) {s : ℕ} (h1 : 1800 ≤ s) (h2 : s ≤ 3600) :
    samplePressure v s = Pc v s := by
  rcases Nat.lt_or_ge 1800 s with hlt | hge
  · exact samplePressure_compression v hlt h2
  · have hs1800 : s = 1800 := le_antisymm hge h1
    subst hs1800
    rw [samplePressure_intake v le_rfl, Pc_at_1800 v hb hsk hcr]

/-- Bounds on the heat-addition multiplier for loads in [0, 100]. -/
theorem multR_bounds (v : Worker.SimParams) (hl0 : 0 ≤ v.load) (hl1 : v.load ≤ 100) :
    (3 / 2 : ℝ) ≤ multR v ∧ multR v ≤ 4 := by
  have h0 : (0 : ℝ) ≤ (v.load : ℝ) := by exact_mod_cast hl0
  have h1 : (v.load : ℝ) ≤ 100 := by exact_mod_cast hl1
  unfold multR
  constructor
  · nlinarith
  · nlinarith

/-- The recorded (3-decimal) pressure is within half a unit in the last
place of the exact pressure. -/
theorem recPressure_err (v : Worker.SimParams) (s : ℕ) :
    samplePressure v s - 1 / 2000 ≤ recPressure v s ∧
      recPressure v s ≤ samplePressure v s + 1 / 2000 := by
  have h1 := jsRoundR_le (samplePressure v s * 1000)
  have h2 := jsRoundR_ge (samplePressure v s * 1000)
  unfold recPressure
  constructor
  · linarith
  · linarith

/-- The recorded (2-decimal cm³) volume is within half a unit in the last
place of the exact volume in cm³. -/
theorem recVolume_err (v : Worker.SimParams) (s : ℕ) :
    sampleVolume v s / 1000 - 1 / 200 ≤ recVolume v s ∧
      recVolume v s ≤ sampleVolume v s / 1000 + 1 / 200 := by
  have h1 := jsRoundR_le (sampleVolume v s / 10)
  have h2 := jsRoundR_ge (sampleVolume v s / 10)
  unfold recVolume
  constructor
  · linarith
  · linarith

/-- The recorded intake pressure is exactly 1.013 bar. -/
theorem recPressure_intake (v : Worker.SimParams) {s : ℕ} (h : s ≤ 1800) :
    recPressure v s = 1013 / 1000 := by
  unfold recPressure
  rw [samplePressure_intake v h,
    show ((101325 : ℝ) / 100000) * 1000 = 1013.25 by norm_num,
    show jsRoundR (1013.25 : ℝ) = 1013 by
      unfold jsRoundR
      rw [Int.floor_eq_iff]
      constructor
      · norm_num
      · norm_num]
  norm_num

/-- The recorded exhaust pressure is exactly 1.064 bar. -/
theorem recPressure_exhaust (v : Worker.SimParams) {s : ℕ} (h : 5400 < s) :
    recPressure v s = 1064 / 1000 := by
  unfold recPressure
  rw [samplePressure_exhaust v h,
    show ((101325 : ℝ) / 100000 * 1.05) * 1000 = 1063.9125 by norm_num,
    show jsRoundR (1063.9125 : ℝ) = 1064 by
      unfold jsRoundR
      rw [Int.floor_eq_iff]
      constructor
      · norm_num
      · norm_num]
  norm_num

/-- The gap between the recorded pressure at the 720°-mirrored sample and
at the sample itself. -/
noncomputable def Qp (v : Worker.SimParams) (s : ℕ) : ℝ :=
  recPressure v (7200 - s) - recPressure v s

/-- On the intake stroke proper (s ≤ 1799) the mirror pressure gap is
exactly the exhaust-minus-intake constant 0.051 bar. -/
theorem Qp_lo (v : Worker.SimParams) {s : ℕ} (h : s ≤ 1799) :
    Qp v s = 51 / 1000 := by
  unfold Qp
  rw [recPressure_exhaust v (show 5400 < 7200 - s by omega),
    recPressure_intake v (by omega)]
  norm_num

/-- At the BDC sample 1800 the mirror gap is nonnegative and at most
3.041 bar. -/
theorem Qp_1800 (v : Worker.SimParams) (hb : 0 < v.bore) (hsk : 0 < v.stroke)
    (hcr : 1 < v.compressionRatio) (hl0 : 0 ≤ v.load) (hl1 : v.load ≤ 100) :
    0 ≤ Qp v 1800 ∧ Qp v 1800 ≤ 3041 / 1000 := by
  have hm := multR_bounds v hl0 hl1
  have hexp : samplePressure v 5400 = multR v * Pc v 5400 :=
    samplePressure_expansion v hb hsk hcr (by omega) (by omega)
  rw [Pc_at_5400 v hb hsk hcr] at hexp
  have herr := recPressure_err v 5400
  rw [hexp] at herr
  unfold Qp
  rw [show (7200 - 1800 : ℕ) = 5400 by omega, recPressure_intake v (le_refl 1800)]
  constructor
  · nlinarith [herr.1, hm.1]
  · nlinarith [herr.2, hm.2]

/-- On [1800, 3499] the recorded expansion pressure at the mirrored
sample exceeds the recorded compression pressure by at least 0.505 bar:
at equal volume the expansion branch is the compression value scaled by
the heat-addition multiplier ≥ 1.5. -/
theorem Qp_mid (v : Worker.SimParams) (hb : 0 < v.bore) (hsk : 0 < v.stroke)
    (hcr : 1 < v.compressionRatio) (hl0 : 0 ≤ v.load) (hl1 : v.load ≤ 100)
    {s : ℕ} (h1 : 1800 ≤ s) (h2 : s ≤ 3499) :
    101 / 200 ≤ Qp v s := by
  have hm := multR_bounds v hl0 hl1
  have hPcge := Pc_ge v hb hsk hcr s
  have hcomp : samplePressure v s = Pc v s :=
    samplePressure_Pc v hb hsk hcr h1 (by omega)
  have hexp : samplePressure v (7200 - s) = multR v * Pc v (7200 - s) :=
    samplePressure_expansion v hb hsk hcr (by omega) (by omega)
  rw [Pc_mirror v s (by omega)] at hexp
  have herr1 := recPressure_err v s
  have herr2 := recPressure_err v (7200 - s)
  rw [hcomp] at herr1
  rw [hexp] at herr2
  unfold Qp
  nlinarith [herr1.2, herr2.1, hm.1, hPcge]

/-- On the late-compression window [3499, 3600] the mirror gap can only
go negative by rounding: the mirrored sample lies in the combustion
window (or is 3600 itself), whose pressure dominates every compression
value. -/
theorem Qp_hi (v : Worker.SimParams) (hb : 0 < v.bore) (hsk : 0 < v.stroke)
    (hcr : 1 < v.compressionRatio) (hl0 : 0 ≤ v.load) (hl1 : v.load ≤ 100)
    {s : ℕ} (h1 : 3499 ≤ s) (h2 : s ≤ 3600) :
    -(1 / 1000) ≤ Qp v s := by
  rcases Nat.eq_or_lt_of_le h1 with heq | hlt1
  · have := Qp_mid v hb hsk hcr hl0 hl1 (show 1800 ≤ s by omega) (by omega)
    linarith
  · rcases Nat.eq_or_lt_of_le h2 with heq2 | hlt2
    · subst heq2
      unfold Qp
      rw [show (7200 - 3600 : ℕ) = 3600 by omega, sub_self]
      norm_num
    · have hcomp : samplePressure v s = Pc v s :=
        samplePressure_Pc v hb hsk hcr (by omega) (by omega)
      have hPcmax := Pc_le_max v hb hsk hcr s
      have hm := multR_bounds v hl0 hl1
      have hcomb : samplePressure v (7200 - s) =
          (101325 : ℝ) / 100000 * (v.compressionRatio : ℝ) ^ (1.35 : ℝ) *
            (1 + (multR v - 1) * ((((7200 - s : ℕ)) : ℝ) / 10 - 360) / 10) :=
        samplePressure_combustion v (by omega) (by omega)
      have ht : (3601 : ℝ) ≤ (((7200 - s : ℕ)) : ℝ) := by
        exact_mod_cast (show 3601 ≤ 7200 - s by omega)
      have hy : (0 : ℝ) ≤ (((7200 - s : ℕ)) : ℝ) / 10 - 360 := by linarith
      have hfac : (0 : ℝ) ≤ (multR v - 1) * ((((7200 - s : ℕ)) : ℝ) / 10 - 360) / 10 :=
        div_nonneg (mul_nonneg (by linarith [hm.1]) hy) (by norm_num)
      have hCRpow : (0 : ℝ) ≤ (101325 : ℝ) / 100000 * (v.compressionRatio : ℝ) ^ (1.35 : ℝ) := by
        have hcrR : (0 : ℝ) < (v.compressionRatio : ℝ) := by
          exact_mod_cast lt_trans zero_lt_one hcr
        positivity
      have hge : (101325 : ℝ) / 100000 * (v.compressionRatio : ℝ) ^ (1.35 : ℝ) ≤
          samplePressure v (7200 - s) := by
        rw [hcomb]
        nlinarith [mul_nonneg hCRpow hfac]
      have herr1 := recPressure_err v s
      have herr2 := recPressure_err v (7200 - s)
      rw [hcomp] at herr1
      unfold Qp
      linarith [herr1.2, herr2.1, hge, hPcmax]

/-- The slider-crank volume is also symmetric about 180°: samples `s` and
`3600 − s` have the same exact volume. -/
theorem sampleVolume_mirror2 (v : Worker.SimParams) (s : ℕ) (hs : s ≤ 3600) :
    sampleVolume v (3600 - s) = sampleVolume v s := by
  rw [sampleVolume_theta, sampleVolume_theta]
  have hθ : thetaS (3600 - s) = 2 * Real.pi - thetaS s := by
    unfold thetaS
    rw [Nat.cast_sub hs]
    push_cast
    ring
  have hcos : Real.cos (thetaS (3600 - s)) = Real.cos (thetaS s) := by
    rw [hθ, show 2 * Real.pi - thetaS s = -(thetaS s - 2 * Real.pi) by ring,
      Real.cos_neg, Real.cos_sub_two_pi]
  have hsin : ((v.stroke : ℝ) / 2 * Real.sin (thetaS (3600 - s))) ^ 2 =
      ((v.stroke : ℝ) / 2 * Real.sin (thetaS s)) ^ 2 := by
    rw [hθ, show 2 * Real.pi - thetaS s = -(thetaS s - 2 * Real.pi) by ring,
      Real.sin_neg, Real.sin_sub_two_pi]
    ring
  rw [hcos, hsin]

/-- The recorded volume inherits the 720° mirror symmetry. -/
theorem recVolume_mirror (v : Worker.SimParams) (s : ℕ) (h : s ≤ 7200) :
    recVolume v (7200 - s) = recVolume v s := by
  unfold recVolume
  rw [sampleVolume_mirror v s h]

/-- The recorded volume is monotone on the intake half-revolution. -/
theorem recVolume_mono (v : Worker.SimParams) (hsk : 0 < v.stroke) {i j : ℕ}
    (hij : i ≤ j) (hj : j ≤ 1800) :
    recVolume v i ≤ recVolume v j := by
  have h := jsRoundR_mono (show sampleVolume v i / 10 ≤ sampleVolume v j / 10 by
    have := sampleVolume_mono v hsk hij hj
    linarith)
  unfold recVolume
  linarith

/-- The recorded volume is antitone on the compression half-revolution. -/
theorem recVolume_anti (v : Worker.SimParams) (hsk : 0 < v.stroke) {i j : ℕ}
    (h1800 : 1800 ≤ i) (hij : i ≤ j) (hj : j ≤ 3600) :
    recVolume v j ≤ recVolume v i := by
  have hmir_i : sampleVolume v (3600 - i) = sampleVolume v i :=
    sampleVolume_mirror2 v i (by omega)
  have hmir_j : sampleVolume v (3600 - j) = sampleVolume v j :=
    sampleVolume_mirror2 v j hj
  have hmono : sampleVolume v (3600 - j) ≤ sampleVolume v (3600 - i) :=
    sampleVolume_mono v hsk (by omega) (by omega)
  rw [hmir_i, hmir_j] at hmono
  have h := jsRoundR_mono (show sampleVolume v j / 10 ≤ sampleVolume v i / 10 by linarith)
  unfold recVolume
  linarith

/-- One trapezoid of the `workPerCycle` sum. -/
noncomputable def trap (v : Worker.SimParams) (i : ℕ) : ℝ :=
  (recPressure v (i + 1) + recPressure v i) / 2 *
    (recVolume v (i + 1) - recVolume v i) * 100

/-- `workPerCycle` as the sum of the 7200 trapezoids. -/
theorem workPerCycle_trap (v : Worker.SimParams) :
    Worker.workPerCycle (Worker.calculateOttoCycle v) =
      ∑ i ∈ Finset.range 7200, trap v i :=
  workPerCycle_sum v

/-- The trapezoid sum folded onto the first half by pairing each index
`i` with its mirror partner `7199 − i`. -/
theorem trap_pair_sum (v : Worker.SimParams) :
    ∑ i ∈ Finset.range 7200, trap v i =
      ∑ i ∈ Finset.range 3600, (trap v i + trap v (7199 - i)) := by
  rw [show (7200 : ℕ) = 3600 + 3600 by omega, Finset.sum_range_add]
  rw [← Finset.sum_range_reflect (fun i => trap v (3600 + i)) 3600]
  rw [← Finset.sum_add_distrib]
  refine Finset.sum_congr rfl fun i hi => ?_
  have hi' : i < 3600 := Finset.mem_range.mp hi
  rw [show 3600 + (3600 - 1 - i) = 7199 - i by omega]

/-- A mirror pair of trapezoids in terms of the volume decrement and the
mirror pressure gaps. -/
theorem trap_pair_eq (v : Worker.SimParams) {i : ℕ} (hi : i ≤ 3599) :
    trap v i + trap v (7199 - i) =
      50 * (recVolume v i - recVolume v (i + 1)) * (Qp v i + Qp v (i + 1)) := by
  unfold trap Qp
  rw [show (7199 - i) + 1 = 7200 - i by omega]
  rw [show (7199 - i : ℕ) = 7200 - (i + 1) by omega]
  rw [recVolume_mirror v i (by omega), recVolume_mirror v (i + 1) (by omega)]
  ring

/-- Splitting the 3600 mirror pairs into the four angular regions. -/
theorem pair_sum_split (G : ℕ → ℝ) :
    ∑ i ∈ Finset.range 3600, G i =
      (∑ i ∈ Finset.range 1799, G i) + G 1799 +
        (∑ i ∈ Finset.range 1699, G (1800 + i)) +
        ∑ i ∈ Finset.range 101, G (3499 + i) := by
  rw [show (3600 : ℕ) = 1799 + 1801 by omega, Finset.sum_range_add,
    show (1801 : ℕ) = 1 + 1800 by omega, Finset.sum_range_add,
    show (1800 : ℕ) = 1699 + 101 by omega, Finset.sum_range_add,
    Finset.sum_range_one]
  have h2 : ∑ x ∈ Finset.range 1699, G (1799 + (1 + x)) =
      ∑ x ∈ Finset.range 1699, G (1800 + x) :=
    Finset.sum_congr rfl fun x _ => by rw [show (1799 + (1 + x) : ℕ) = 1800 + x by omega]
  have h3 : ∑ x ∈ Finset.range 101, G (1799 + (1 + (1699 + x))) =
      ∑ x ∈ Finset.range 101, G (3499 + x) :=
    Finset.sum_congr rfl fun x _ => by rw [show (1799 + (1 + (1699 + x)) : ℕ) = 3499 + x by omega]
  rw [h2, h3, show (1799 + 0 : ℕ) = 1799 by omega]
  ring

/-- On the strict intake region the pair sum telescopes exactly. -/
theorem pair_sum_A (v : Worker.SimParams) :
    ∑ i ∈ Finset.range 1799, (trap v i + trap v (7199 - i)) =
      51 / 10 * (recVolume v 0 - recVolume v 1799) := by
  have h : ∀ i ∈ Finset.range 1799, trap v i + trap v (7199 - i) =
      51 / 10 * (recVolume v i - recVolume v (i + 1)) := by
    intro i hi
    have hi' : i < 1799 := Finset.mem_range.mp hi
    rw [trap_pair_eq v (by omega), Qp_lo v (show i ≤ 1799 by omega),
      Qp_lo v (show i + 1 ≤ 1799 by omega)]
    ring
  rw [Finset.sum_congr rfl h, ← Finset.mul_sum,
    Finset.sum_range_sub' (fun i => recVolume v i) 1799]

set_option maxHeartbeats 1000000 in
/-- C8: for every parameter set satisfying the validated lower bounds on
bore and stroke (≥ 50 mm) with compressionRatio > 1 and 0 < load ≤ 100,
the net indicated work computed by the worker's trapezoidal P–V
integration over the full returned cycle sequence (`workPerCycle`, the
sum of `avgP · ΔV`, unit-converted to joules) is strictly positive. -/
theorem c8_trapezoidal_net_work_positive (v : Worker.SimParams)
    (hb : 50 ≤ v.bore) (hsk : 50 ≤ v.stroke) (hcr : 1 < v.compressionRatio)
    (hl : 0 < v.load) (hl1 : v.load ≤ 100) :
    0 < Worker.workPerCycle (Worker.calculateOttoCycle v) := by
  have hb0 : 0 < v.bore := by linarith
  have hsk0 : 0 < v.stroke := by linarith
  have hl0 : 0 ≤ v.load := hl.le
  have hA := pair_sum_A v
  have hQ1799 : Qp v 1799 = 51 / 1000 := Qp_lo v (by omega)
  have hQ1800 := Qp_1800 v hb0 hsk0 hcr hl0 hl1
  have hdVB : recVolume v 1799 ≤ recVolume v 1800 :=
    recVolume_mono v hsk0 (by omega) (by omega)
  have hB : -(155 : ℝ) * (recVolume v 1800 - recVolume v 1799) ≤
      trap v 1799 + trap v (7199 - 1799) := by
    rw [trap_pair_eq v (by omega : (1799 : ℕ) ≤ 3599), hQ1799]
    nlinarith [mul_nonneg (sub_nonneg.mpr hdVB)
      (by linarith [hQ1800.2] : (0 : ℝ) ≤ 31 / 10 - (51 / 1000 + Qp v 1800))]
  have hCpt : ∀ i ∈ Finset.range 1699,
      50 * (recVolume v (1800 + i) - recVolume v (1800 + i + 1)) ≤
        trap v (1800 + i) + trap v (7199 - (1800 + i)) := by
    intro i hi
    have hi' : i < 1699 := Finset.mem_range.mp hi
    rw [trap_pair_eq v (by omega)]
    have hdV : recVolume v (1800 + i + 1) ≤ recVolume v (1800 + i) :=
      recVolume_anti v hsk0 (by omega) (by omega) (by omega)
    have hq1 : (101 : ℝ) / 200 ≤ Qp v (1800 + i) :=
      Qp_mid v hb0 hsk0 hcr hl0 hl1 (by omega) (by omega)
    have hq2 : (101 : ℝ) / 200 ≤ Qp v (1800 + i + 1) :=
      Qp_mid v hb0 hsk0 hcr hl0 hl1 (by omega) (by omega)
    nlinarith [mul_nonneg (sub_nonneg.mpr hdV)
      (by linarith : (0 : ℝ) ≤ Qp v (1800 + i) + Qp v (1800 + i + 1) - 1)]
  have htelC : ∑ i ∈ Finset.range 1699,
      (recVolume v (1800 + i) - recVolume v (1800 + i + 1)) =
      recVolume v 1800 - recVolume v 3499 := by
    have h := Finset.sum_range_sub' (fun i => recVolume v (1800 + i)) 1699
    have h2 : ∑ i ∈ Finset.range 1699,
        (recVolume v (1800 + i) - recVolume v (1800 + i + 1)) =
        ∑ i ∈ Finset.range 1699,
          (recVolume v (1800 + i) - recVolume v (1800 + (i + 1))) :=
      Finset.sum_congr rfl fun i _ => by
        rw [show (1800 + i + 1 : ℕ) = 1800 + (i + 1) by omega]
    rw [h2, h]
  have hC : 50 * (recVolume v 1800 - recVolume v 3499) ≤
      ∑ i ∈ Finset.range 1699, (trap v (1800 + i) + trap v (7199 - (1800 + i))) := by
    have hle := Finset.sum_le_sum hCpt
    rw [← Finset.mul_sum, htelC] at hle
    exact hle
  have hDpt : ∀ i ∈ Finset.range 101,
      -(1 / 10 : ℝ) * (recVolume v (3499 + i) - recVolume v (3499 + i + 1)) ≤
        trap v (3499 + i) + trap v (7199 - (3499 + i)) := by
    intro i hi
    have hi' : i < 101 := Finset.mem_range.mp hi
    rw [trap_pair_eq v (by omega)]
    have hdV : recVolume v (3499 + i + 1) ≤ recVolume v (3499 + i) :=
      recVolume_anti v hsk0 (by omega) (by omega) (by omega)
    have hq1 : -(1 / 1000 : ℝ) ≤ Qp v (3499 + i) :=
      Qp_hi v hb0 hsk0 hcr hl0 hl1 (by omega) (by omega)
    have hq2 : -(1 / 1000 : ℝ) ≤ Qp v (3499 + i + 1) :=
      Qp_hi v hb0 hsk0 hcr hl0 hl1 (by omega) (by omega)
    nlinarith [mul_nonneg (sub_nonneg.mpr hdV)
      (by linarith : (0 : ℝ) ≤ Qp v (3499 + i) + Qp v (3499 + i + 1) + 2 / 1000)]
  have htelD : ∑ i ∈ Finset.range 101,
      (recVolume v (3499 + i) - recVolume v (3499 + i + 1)) =
      recVolume v 3499 - recVolume v 3600 := by
    have h := Finset.sum_range_sub' (fun i => recVolume v (3499 + i)) 101
    have h2 : ∑ i ∈ Finset.range 101,
        (recVolume v (3499 + i) - recVolume v (3499 + i + 1)) =
        ∑ i ∈ Finset.range 101,
          (recVolume v (3499 + i) - recVolume v (3499 + (i + 1))) :=
      Finset.sum_congr rfl fun i _ => by
        rw [show (3499 + i + 1 : ℕ) = 3499 + (i + 1) by omega]
    rw [h2, h]
  have hD : -(1 / 10 : ℝ) * (recVolume v 3499 - recVolume v 3600) ≤
      ∑ i ∈ Finset.range 101, (trap v (3499 + i) + trap v (7199 - (3499 + i))) := by
    have hle := Finset.sum_le_sum hDpt
    rw [← Finset.mul_sum, htelD] at hle
    exact hle
  have hsplit := pair_sum_split (fun i => trap v i + trap v (7199 - i))
  rw [workPerCycle_trap v, trap_pair_sum v, hsplit]
  have herrV0 := recVolume_err v 0
  have herrV1799 := recVolume_err v 1799
  have herrV1800 := recVolume_err v 1800
  have herrV3499 := recVolume_err v 3499
  have herrV3600 := recVolume_err v 3600
  have hat0 : sampleVolume v 0 = Worker.wClearance v := sampleVolume_at_0 v hsk0.le
  have hat1800 : sampleVolume v 1800 = Worker.wClearance v + Worker.wDisplacement v :=
    sampleVolume_at_1800 v hsk0.le
  have hat3600 : sampleVolume v 3600 = Worker.wClearance v := sampleVolume_at_3600 v hsk0.le
  have hle1799 : sampleVolume v 1799 ≤ Worker.wClearance v + Worker.wDisplacement v :=
    sampleVolume_le v hsk0.le 1799
  have hle3499 : sampleVolume v 3499 ≤ Worker.wClearance v +
      13 / 1000 * Worker.wDisplacement v := sampleVolume_3499_le v hsk0
  have hstep := sampleVolume_1800_sub_1799 v hsk0
  have hDlb : (98000 : ℝ) ≤ Worker.wDisplacement v := by
    have hbR : (50 : ℝ) ≤ (v.bore : ℝ) := by exact_mod_cast hb
    have hsR : (50 : ℝ) ≤ (v.stroke : ℝ) := by exact_mod_cast hsk
    have hpi : (3.14 : ℝ) < Real.pi := Real.pi_gt_d2
    have hq : (625 : ℝ) ≤ ((v.bore : ℝ) / 2) ^ 2 := by nlinarith
    have hq2 : (3.14 : ℝ) * 625 ≤ Real.pi * ((v.bore : ℝ) / 2) ^ 2 := by nlinarith
    unfold Worker.wDisplacement
    nlinarith
  linarith [hA, hB, hC, hD, herrV0.1, herrV1799.2, herrV1800.1, herrV1800.2,
    herrV1799.1, herrV3499.2, herrV3600.1, hat0, hat1800, hat3600, hle1799,
    hle3499, hstep, hDlb, hdVB]

/-- C8 witness: positive net work at the default parameter set. -/
theorem c8_trapezoidal_net_work_positive_witness :
    0 < Worker.workPerCycle (Worker.calculateOttoCycle ⟨86, 86, 21/2, 4, 2000, 75, 298⟩) :=
  c8_trapezoidal_net_work_positive ⟨86, 86, 21/2, 4, 2000, 75, 298⟩
    (by norm_num) (by norm_num) (by norm_num) (by norm_num) (by norm_num)

/-- C10: a simulation request missing any of the seven parameter keys has
the built-in defaults (bore 86, stroke 86, compressionRatio 10.5,
cylinders 4, engineSpeed 2000, load 75, intakeTemp 298) silently
substituted; a missing key never raises an error (the all-absent request
validates successfully to exactly the defaults), and range validation is
applied only to the merged values (an accepted parameter set is always
the merged one). -/
theorem c10_missing_keys_get_defaults :
    (Worker.validateParameters ⟨none, none, none, none, none, none, none⟩ =
      .ok ⟨86, 86, 21/2, 4, 2000, 75, 298⟩) ∧
    (∀ (p : Worker.SimRequest) (v : Worker.SimParams),
      Worker.validateParameters p = .ok v → v = Worker.mergeDefaults p) ∧
    (∀ p : Worker.SimRequest,
      (p.bore = none → (Worker.mergeDefaults p).bore = 86) ∧
      (p.stroke = none → (Worker.mergeDefaults p).stroke = 86) ∧
      (p.compressionRatio = none → (Worker.mergeDefaults p).compressionRatio = 21/2) ∧
      (p.cylinders = none → (Worker.mergeDefaults p).cylinders = 4) ∧
      (p.engineSpeed = none → (Worker.mergeDefaults p).engineSpeed = 2000) ∧
      (p.load = none → (Worker.mergeDefaults p).load = 75) ∧
      (p.intakeTemp = none → (Worker.mergeDefaults p).intakeTemp = 298)) := by
  refine ⟨by unfold Worker.validateParameters; norm_num [Worker.mergeDefaults], ?_, ?_⟩
  · intro p v h
    unfold Worker.validateParameters at h
    split_ifs at h <;> simp_all
  · intro p
    refine ⟨?_, ?_, ?_, ?_, ?_, ?_, ?_⟩ <;> intro h <;> simp [Worker.mergeDefaults, h]

/-- C10 witness: instantiation at a request that supplies only the load. -/
theorem c10_missing_keys_get_defaults_witness :
    ((⟨none, none, none, none, none, some 20, none⟩ : Worker.SimRequest).bore = none →
      (Worker.mergeDefaults ⟨none, none, none, none, none, some 20, none⟩).bore = 86) ∧
    Worker.validateParameters ⟨none, none, none, none, none, none, none⟩ =
      .ok ⟨86, 86, 21/2, 4, 2000, 75, 298⟩ :=
  ⟨(c10_missing_keys_get_defaults.2.2 ⟨none, none, none, none, none, some 20, none⟩).1,
    c10_missing_keys_get_defaults.1⟩

/-- C3 counterexample: the claim says a request with any supplied
parameter outside the documented ranges (in particular load outside
0-100 %) is rejected before the cycle loop; but a request with
load = 500 and every other key absent is accepted — `validateParameters`
never checks `load` (nor `intakeTemp`), and `simulateEngine` proceeds to
produce a full result. -/
theorem c3_out_of_range_load_accepted :
    (Worker.mergeDefaults ⟨none, none, none, none, none, some 500, none⟩).load = 500 ∧
    ¬ ((Worker.mergeDefaults ⟨none, none, none, none, none, some 500, none⟩).load ≤ 100) ∧
    Worker.validateParameters ⟨none, none, none, none, none, some 500, none⟩ =
      .ok (Worker.mergeDefaults ⟨none, none, none, none, none, some 500, none⟩) ∧
    exceptOk (Worker.simulateEngine ⟨none, none, none, none, none, some 500, none⟩) = true := by
  have h : Worker.validateParameters ⟨none, none, none, none, none, some 500, none⟩ =
      .ok (Worker.mergeDefaults ⟨none, none, none, none, none, some 500, none⟩) := by
    unfold Worker.validateParameters
    norm_num [Worker.mergeDefaults]
  refine ⟨by decide, by decide, h, ?_⟩
  unfold Worker.simulateEngine
  rw [h]
  rfl

/-- C3 amended: the worker rejects a request before the cycle loop (the
terminal result is an error, and no cycle is emitted) whenever one of
the five parameters it actually checks — bore, stroke, compressionRatio,
cylinders, engineSpeed — lies outside its validated range; load and
intakeTemp are never validated. -/
theorem c3_amended_checked_params_rejected (p : Worker.SimRequest)
    (h : (Worker.mergeDefaults p).bore < 50 ∨ (Worker.mergeDefaults p).bore > 150 ∨
      (Worker.mergeDefaults p).stroke < 50 ∨ (Worker.mergeDefaults p).stroke > 150 ∨
      (Worker.mergeDefaults p).compressionRatio < 8 ∨
      (Worker.mergeDefaults p).compressionRatio > 15 ∨
      (Worker.mergeDefaults p).cylinders < 1 ∨ (Worker.mergeDefaults p).cylinders > 12 ∨
      (Worker.mergeDefaults p).engineSpeed < 500 ∨ (Worker.mergeDefaults p).engineSpeed > 8000) :
    exceptOk (Worker.simulateEngine p) = false := by
  unfold Worker.simulateEngine Worker.validateParameters
  split_ifs with h1 h2 h3 h4 h5 <;> try rfl
  exact absurd h (by tauto)

/-- C3 amended witness: a request with bore = 10 mm (below the 50 mm
floor) is rejected. -/
theorem c3_amended_checked_params_rejected_witness :
    exceptOk (Worker.simulateEngine ⟨some 10, none, none, none, none, none, none⟩) = false :=
  c3_amended_checked_params_rejected ⟨some 10, none, none, none, none, none, none⟩
    (by decide)

/-- Parameter assignment (`Object.assign` plus the rod recomputation)
never touches the derived displacement field. -/
theorem assignParameters_displacement (g : Geometry.EngineGeometry) (p : Geometry.UpdateInput) :
    (assignParameters g p).displacement = g.displacement := by
  unfold assignParameters; split <;> rfl

/-- Parameter assignment never touches the derived clearance field. -/
theorem assignParameters_clearanceVolume (g : Geometry.EngineGeometry)
    (p : Geometry.UpdateInput) :
    (assignParameters g p).clearanceVolume = g.clearanceVolume := by
  unfold assignParameters; split <;> rfl

/-- Parameter assignment never touches the derived max-volume field. -/
theorem assignParameters_maxCylinderVolume (g : Geometry.EngineGeometry)
    (p : Geometry.UpdateInput) :
    (assignParameters g p).maxCylinderVolume = g.maxCylinderVolume := by
  unfold assignParameters; split <;> rfl

/-- C9: when `updateGeometry` is called with parameters that fail
validation, the call reports an error but leaves the instance mutated
and inconsistent: the parameter fields already hold the values from the
assignment step (in particular any explicitly supplied new value), while
displacement, clearanceVolume and maxCylinderVolume still hold the
values derived from the old parameters — the update is not atomic on
error. -/
theorem c9_updateGeometry_not_atomic_on_error (g : Geometry.EngineGeometry)
    (p : Geometry.UpdateInput)
    (h : geometryViolations (assignParameters g p).bore (assignParameters g p).stroke
      (assignParameters g p).connectingRodLength (assignParameters g p).compressionRatio
      (assignParameters g p).numberOfCylinders ≠ []) :
    (updateGeometry g p).2 ≠ none ∧
    (updateGeometry g p).1.bore = (assignParameters g p).bore ∧
    (updateGeometry g p).1.stroke = (assignParameters g p).stroke ∧
    (updateGeometry g p).1.compressionRatio = (assignParameters g p).compressionRatio ∧
    (updateGeometry g p).1.numberOfCylinders = (assignParameters g p).numberOfCylinders ∧
    (updateGeometry g p).1.displacement = g.displacement ∧
    (updateGeometry g p).1.clearanceVolume = g.clearanceVolume ∧
    (updateGeometry g p).1.maxCylinderVolume = g.maxCylinderVolume := by
  unfold updateGeometry
  rw [show validateGeometry (assignParameters g p).bore (assignParameters g p).stroke
      (assignParameters g p).connectingRodLength (assignParameters g p).compressionRatio
      (assignParameters g p).numberOfCylinders =
      some ("Geometry validation failed: " ++
        String.intercalate ", "
          (geometryViolations (assignParameters g p).bore (assignParameters g p).stroke
            (assignParameters g p).connectingRodLength (assignParameters g p).compressionRatio
            (assignParameters g p).numberOfCylinders)) from by
    unfold validateGeometry; simp only [if_neg h]]
  exact ⟨by simp, rfl, rfl, rfl, rfl, assignParameters_displacement g p,
    assignParameters_clearanceVolume g p, assignParameters_maxCylinderVolume g p⟩

/-- C9 witness: updating the default geometry with bore = 300 mm (out of
range) errors, yet the returned instance carries bore = 300 with the old
derived displacement. -/
theorem c9_updateGeometry_not_atomic_on_error_witness :
    (updateGeometry
        ⟨86, 86, 129, 10, 4, calculateDisplacement 86 86 4,
          calculateClearanceVolume 86 86 10,
          calculateDisplacement 86 86 4 + calculateClearanceVolume 86 86 10⟩
        ⟨some 300, none, none, none, none⟩).2 ≠ none ∧
    (updateGeometry
        ⟨86, 86, 129, 10, 4, calculateDisplacement 86 86 4,
          calculateClearanceVolume 86 86 10,
          calculateDisplacement 86 86 4 + calculateClearanceVolume 86 86 10⟩
        ⟨some 300, none, none, none, none⟩).1.bore = 300 ∧
    (updateGeometry
        ⟨86, 86, 129, 10, 4, calculateDisplacement 86 86 4,
          calculateClearanceVolume 86 86 10,
          calculateDisplacement 86 86 4 + calculateClearanceVolume 86 86 10⟩
        ⟨some 300, none, none, none, none⟩).1.displacement = calculateDisplacement 86 86 4 := by
  have h := c9_updateGeometry_not_atomic_on_error
    ⟨86, 86, 129, 10, 4, calculateDisplacement 86 86 4,
      calculateClearanceVolume 86 86 10,
      calculateDisplacement 86 86 4 + calculateClearanceVolume 86 86 10⟩
    ⟨some 300, none, none, none, none⟩
    (by decide)
  refine ⟨h.1, ?_, h.2.2.2.2.2.1⟩
  rw [h.2.1]
  decide

end Claims

end EngineSim
